import Mathlib

/-! # DevPod provider for Oracle Cloud: a shallow embedding of `pkg/oracle`

The Go package `pkg/oracle` (files `errors.go`, `constants.go`, `oracle.go`) is
embedded as Lean functions.

* Go `string` is `String`; a Go pointer (`*string`, `*bool`) is an `Option`,
  `nil` being `none`; dereferencing `nil` is a run-time panic.
* A Go `map[string]string` is an association list read with `mapIndex`
  (a missing key reads as the empty string, as in Go).
* A method of `*Oracle` runs against a backend: the three SDK clients are a
  record of transition functions over an arbitrary backend state, and every
  request handed to a client is appended to a trace of calls.
* A Go function returning `(value, error)` is a `Go σ α` computation: it ends
  with a value (`Res.ok`, the Go error being `nil`), with an error (`Res.err`,
  the Go value being the zero value), or with a panic (`Res.panic`).
-/

namespace Oracle

/-! ## Errors (`errors.go`, `constants.go`) -/

/-- Go error values as the package meets them: a plain error made by
`errors.New` or `fmt.Errorf`, a backend `common.ServiceError` carrying an HTTP
status code, and an error wrapped with a message by `errors.Wrap`. -/
inductive GoError where
  | plain (msg : String)
  | service (status : Int) (msg : String)
  | wrap (msg : String) (cause : GoError)
deriving DecidableEq, Repr

/-- The method `Error()` of an error: its message. -/
def GoError.Error : GoError → String
  | .plain msg => msg
  | .service _ msg => msg
  | .wrap msg cause => msg ++ ": " ++ cause.Error

/-- The call `errors.As(err, &serviceErr)`: the first service error in the
chain of wrapped errors, given by its HTTP status code. -/
def asServiceError : GoError → Option Int
  | .plain _ => none
  | .service status _ => some status
  | .wrap _ cause => asServiceError cause

/-- Substring search over character lists. -/
def containsChars : List Char → List Char → Bool
  | [], sub => sub.isPrefixOf []
  | c :: cs, sub => sub.isPrefixOf (c :: cs) || containsChars cs sub

/-- The library function `strings.Contains`. -/
def strings.Contains (s substr : String) : Bool :=
  containsChars s.data substr.data

def labelMachineID : String := "machine-id"

def labelType : String := "type"

def labelTypeDevPod : String := "devpod"

def errMissingMachineID : String := "missing machine id"

def errMissingServer : String := "missing server"

def errMissingVolume : String := "missing volume"

/-- IsNotFound returns true if the error is a not found error (`errors.go`);
the argument `none` is the `nil` error. -/
def IsNotFound (err : Option GoError) : Bool :=
  match err with
  | none => false
  | some e =>
    match asServiceError e with
    | some status => status == 404
    | none =>
      strings.Contains e.Error "not found" ||
      strings.Contains e.Error "NotFound" ||
      strings.Contains e.Error "does not exist"

/-- MissingMachineID returns a missing machine id error. -/
def MissingMachineID : GoError := .plain errMissingMachineID

/-- MissingServer returns a missing server error. -/
def MissingServer : GoError := .plain errMissingServer

/-- MissingVolume returns a missing volume error. -/
def MissingVolume : GoError := .plain errMissingVolume

/-! ## SDK records (the fields the package reads or writes) -/

/-- A Go `map[string]string`. -/
abbrev StringMap := List (String × String)

/-- The Go index expression `m[key]` on a `map[string]string`: the zero value
`""` when the key is absent (also on a `nil` map). -/
def mapIndex (m : StringMap) (key : String) : String :=
  (m.lookup key).getD ""

structure Vcn where
  Id : Option String
  DisplayName : Option String
  CompartmentId : Option String
  CidrBlock : Option String
deriving DecidableEq, Repr

structure InternetGateway where
  Id : Option String
  DisplayName : Option String
  CompartmentId : Option String
  VcnId : Option String
  IsEnabled : Option Bool
deriving DecidableEq, Repr

structure RouteRule where
  NetworkEntityId : Option String
  Destination : Option String
  DestinationType : String
deriving DecidableEq, Repr

structure RouteTable where
  Id : Option String
  DisplayName : Option String
  CompartmentId : Option String
  VcnId : Option String
  RouteRules : List RouteRule
deriving DecidableEq, Repr

structure Subnet where
  Id : Option String
  DisplayName : Option String
  CompartmentId : Option String
  VcnId : Option String
  CidrBlock : Option String
  RouteTableId : Option String
  AvailabilityDomain : Option String
deriving DecidableEq, Repr

structure Image where
  Id : Option String
  DisplayName : Option String
deriving DecidableEq, Repr

structure Instance where
  Id : Option String
  DisplayName : Option String
  LifecycleState : String
  FreeformTags : StringMap
deriving DecidableEq, Repr

structure VnicAttachment where
  VnicId : Option String
deriving DecidableEq, Repr

structure Vnic where
  PublicIp : Option String
  PrivateIp : Option String
deriving DecidableEq, Repr

/-! Values of `core.InstanceLifecycleStateEnum`, a Go string type. -/

def InstanceLifecycleStateProvisioning : String := "PROVISIONING"

def InstanceLifecycleStateRunning : String := "RUNNING"

def InstanceLifecycleStateStarting : String := "STARTING"

def InstanceLifecycleStateStopping : String := "STOPPING"

def InstanceLifecycleStateStopped : String := "STOPPED"

def InstanceLifecycleStateTerminated : String := "TERMINATED"

def InstanceActionActionStart : String := "START"

def InstanceActionActionStop : String := "STOP"

def RouteRuleDestinationTypeCidrBlock : String := "CIDR_BLOCK"

def InstanceSourceBootVolumeTypeParavirtualized : String := "PARAVIRTUALIZED"

def InstanceLaunchOptionsNetworkTypeParavirtualized : String := "PARAVIRTUALIZED"

/-! ## SDK requests -/

structure ListVcnsRequest where
  CompartmentId : Option String
deriving DecidableEq, Repr

structure CreateVcnDetails where
  CompartmentId : Option String
  DisplayName : Option String
  CidrBlock : Option String
  DnsLabel : Option String
  FreeformTags : StringMap
deriving DecidableEq, Repr

structure ListInternetGatewaysRequest where
  CompartmentId : Option String
  VcnId : Option String
deriving DecidableEq, Repr

structure CreateInternetGatewayDetails where
  CompartmentId : Option String
  DisplayName : Option String
  VcnId : Option String
  IsEnabled : Option Bool
  FreeformTags : StringMap
deriving DecidableEq, Repr

structure ListRouteTablesRequest where
  CompartmentId : Option String
  VcnId : Option String
deriving DecidableEq, Repr

structure CreateRouteTableDetails where
  CompartmentId : Option String
  DisplayName : Option String
  VcnId : Option String
  RouteRules : List RouteRule
  FreeformTags : StringMap
deriving DecidableEq, Repr

structure ListSubnetsRequest where
  CompartmentId : Option String
  VcnId : Option String
deriving DecidableEq, Repr

structure CreateSubnetDetails where
  CompartmentId : Option String
  DisplayName : Option String
  VcnId : Option String
  CidrBlock : Option String
  RouteTableId : Option String
  DnsLabel : Option String
  AvailabilityDomain : Option String
  FreeformTags : StringMap
deriving DecidableEq, Repr

structure ListImagesRequest where
  CompartmentId : Option String
  DisplayName : Option String
deriving DecidableEq, Repr

/-- The request of `GetInstance` sets the display name only. -/
structure ListInstancesRequest where
  DisplayName : Option String
deriving DecidableEq, Repr

structure TerminateInstanceRequest where
  InstanceId : Option String
  PreserveBootVolume : Option Bool
deriving DecidableEq, Repr

structure InstanceActionRequest where
  InstanceId : Option String
  Action : String
deriving DecidableEq, Repr

structure ListVnicAttachmentsRequest where
  InstanceId : Option String
deriving DecidableEq, Repr

structure GetVnicRequest where
  VnicId : Option String
deriving DecidableEq, Repr

structure LaunchOptions where
  BootVolumeType : String
  NetworkType : String
  IsConsistentVolumeNamingEnabled : Option Bool
deriving DecidableEq, Repr

structure InstanceSourceViaImageDetails where
  ImageId : Option String
  LaunchOptions : Option LaunchOptions
  KmsKeyId : Option String
deriving DecidableEq, Repr

structure CreateVnicDetails where
  SubnetId : Option String
  AssignPublicIp : Option Bool
deriving DecidableEq, Repr

/-- The fields of `core.LaunchInstanceDetails` set by `BuildInstanceOptions`
(the request wraps nothing else). -/
structure LaunchInstanceRequest where
  AvailabilityDomain : Option String
  CompartmentId : Option String
  Shape : Option String
  DisplayName : Option String
  SourceDetails : Option InstanceSourceViaImageDetails
  CreateVnicDetails : Option CreateVnicDetails
  Metadata : StringMap
  FreeformTags : StringMap
deriving DecidableEq, Repr

/-! ## The backend and the trace of calls -/

/-- One request handed to an SDK client. -/
inductive Call where
  | ListVcns (req : ListVcnsRequest)
  | CreateVcn (req : CreateVcnDetails)
  | ListInternetGateways (req : ListInternetGatewaysRequest)
  | CreateInternetGateway (req : CreateInternetGatewayDetails)
  | ListRouteTables (req : ListRouteTablesRequest)
  | CreateRouteTable (req : CreateRouteTableDetails)
  | ListSubnets (req : ListSubnetsRequest)
  | CreateSubnet (req : CreateSubnetDetails)
  | ListImages (req : ListImagesRequest)
  | ListInstances (req : ListInstancesRequest)
  | TerminateInstance (req : TerminateInstanceRequest)
  | InstanceAction (req : InstanceActionRequest)
  | ListVnicAttachments (req : ListVnicAttachmentsRequest)
  | GetVnic (req : GetVnicRequest)
  | LaunchInstance (req : LaunchInstanceRequest)
deriving DecidableEq, Repr

/-- The SDK clients of `Oracle` (`computeClient`, `networkClient`) over a
backend state `σ`: each operation answers a request with a response or an
error and moves the backend to its next state. -/
structure Backend (σ : Type) where
  ListVcns : σ → ListVcnsRequest → Except GoError (List Vcn) × σ
  CreateVcn : σ → CreateVcnDetails → Except GoError Vcn × σ
  ListInternetGateways :
    σ → ListInternetGatewaysRequest → Except GoError (List InternetGateway) × σ
  CreateInternetGateway :
    σ → CreateInternetGatewayDetails → Except GoError InternetGateway × σ
  ListRouteTables : σ → ListRouteTablesRequest → Except GoError (List RouteTable) × σ
  CreateRouteTable : σ → CreateRouteTableDetails → Except GoError RouteTable × σ
  ListSubnets : σ → ListSubnetsRequest → Except GoError (List Subnet) × σ
  CreateSubnet : σ → CreateSubnetDetails → Except GoError Subnet × σ
  ListImages : σ → ListImagesRequest → Except GoError (List Image) × σ
  ListInstances : σ → ListInstancesRequest → Except GoError (List Instance) × σ
  TerminateInstance : σ → TerminateInstanceRequest → Except GoError Unit × σ
  InstanceAction : σ → InstanceActionRequest → Except GoError Instance × σ
  ListVnicAttachments :
    σ → ListVnicAttachmentsRequest → Except GoError (List VnicAttachment) × σ
  GetVnic : σ → GetVnicRequest → Except GoError Vnic × σ
  LaunchInstance : σ → LaunchInstanceRequest → Except GoError Instance × σ

/-- The backend state together with the calls issued so far, oldest first. -/
structure World (σ : Type) where
  state : σ
  trace : List Call
deriving DecidableEq

/-- How a Go function ends. -/
inductive Res (σ α : Type) where
  | ok (a : α) (w : World σ)
  | err (e : GoError) (w : World σ)
  | panic (w : World σ)
deriving DecidableEq

/-- The world in which a run ends. -/
def Res.world {σ α : Type} : Res σ α → World σ
  | .ok _ w => w
  | .err _ w => w
  | .panic w => w

/-- A Go computation against a backend. -/
def Go (σ α : Type) : Type := World σ → Res σ α

/-- Sequencing: an error or a panic ends the function. -/
def Go.bind {σ α β : Type} (m : Go σ α) (f : α → Go σ β) : Go σ β := fun w =>
  match m w with
  | .ok a w1 => f a w1
  | .err e w1 => .err e w1
  | .panic w1 => .panic w1

instance {σ : Type} : Monad (Go σ) where
  pure a := fun w => .ok a w
  bind := Go.bind

/-- The statement `return ..., err` with a non-nil error. -/
def returnErr {σ α : Type} (e : GoError) : Go σ α := fun w => .err e w

/-- Dereferencing a pointer: a `nil` pointer panics. -/
def deref {σ α : Type} (p : Option α) : Go σ α := fun w =>
  match p with
  | some a => .ok a w
  | none => .panic w

/-- Running a callee and receiving its `(value, err)` pair. -/
def attempt {σ α : Type} (m : Go σ α) : Go σ (Except GoError α) := fun w =>
  match m w with
  | .ok a w1 => .ok (.ok a) w1
  | .err e w1 => .ok (.error e) w1
  | .panic w1 => .panic w1

/-- The pattern `if err != nil { return nil, errors.Wrap(err, msg) }`. -/
def wrapErr {σ α : Type} (m : Go σ α) (msg : String) : Go σ α := fun w =>
  match m w with
  | .ok a w1 => .ok a w1
  | .err e w1 => .err (.wrap msg e) w1
  | .panic w1 => .panic w1

/-- One client call: the request is recorded and the backend answers. -/
def invoke {σ α : Type} (op : σ → Except GoError α × σ) (c : Call) : Go σ α := fun w =>
  match op w.state with
  | (.ok a, s) => .ok a ⟨s, w.trace ++ [c]⟩
  | (.error e, s) => .err e ⟨s, w.trace ++ [c]⟩

/-! ## Library functions used by the package -/

/-- The value of one decimal digit. -/
def digitValue (c : Char) : Option Nat :=
  if '0' ≤ c ∧ c ≤ '9' then some (c.toNat - '0'.toNat) else none

/-- The two errors a `*strconv.NumError` of `Atoi` carries. -/
inductive NumErrorKind where
  | ErrSyntax
  | ErrRange
deriving DecidableEq, Repr

/-- The message of `strconv.ErrSyntax` and of `strconv.ErrRange`. -/
def NumErrorKind.Error : NumErrorKind → String
  | .ErrSyntax => "invalid syntax"
  | .ErrRange => "value out of range"

/-- The library type `strconv.NumError`: the failing function, the input and
the error. -/
structure NumError where
  Func : String
  Num : String
  Err : NumErrorKind
deriving DecidableEq, Repr

/-- The method `Error()` of a `*strconv.NumError` as a Go error; `quote` is the
library function `strconv.Quote`. -/
def NumError.toError (quote : String → String) (e : NumError) : GoError :=
  .plain ("strconv." ++ e.Func ++ ": parsing " ++ quote e.Num ++ ": " ++ e.Err.Error)

/-- The digit loop of `strconv.ParseUint` in base 10 for 64 bits, most
significant digit first: a character that is not a digit is a syntax error,
and a value that no longer fits 64 bits is a range error, whichever the loop
meets first. -/
def parseUintDigits : List Char → Nat → Except NumErrorKind Nat
  | [], n => .ok n
  | c :: cs, n =>
    match digitValue c with
    | none => .error .ErrSyntax
    | some d =>
      if n * 10 + d > 2 ^ 64 - 1 then .error .ErrRange else parseUintDigits cs (n * 10 + d)

/-- Taking a leading sign off: whether the sign is `-`, and what follows. -/
def splitSign : List Char → Bool × List Char
  | '-' :: rest => (true, rest)
  | '+' :: rest => (false, rest)
  | rest => (false, rest)

/-- The library function `strconv.Atoi` for a 64-bit `int`: an optional sign
followed by at least one decimal digit, the value within the range of `int`.
Its error is a `*strconv.NumError` for the function `Atoi` and the whole
input. -/
def strconv.Atoi (s : String) : Except NumError Int :=
  let signed : Bool × List Char := splitSign s.data
  match signed.2 with
  | [] => .error ⟨"Atoi", s, .ErrSyntax⟩
  | digits =>
    match parseUintDigits digits 0 with
    | .error kind => .error ⟨"Atoi", s, kind⟩
    | .ok n =>
      if signed.1 then
        if n ≤ 2 ^ 63 then .ok (-(n : Int)) else .error ⟨"Atoi", s, .ErrRange⟩
      else
        if n < 2 ^ 63 then .ok (n : Int) else .error ⟨"Atoi", s, .ErrRange⟩

/-- What the package takes from outside the repository besides the SDK
clients: the SSH key reader and digest, base64, the embedded file
`cloud-config.yaml` with its template engine, the random UUID, and the quoting
of a string in the message of a `*strconv.NumError`. -/
structure Env where
  /-- The call `ssh.ParseAuthorizedKey`: the wire blob of the key of an
  authorized-key line, or an error. -/
  ParseAuthorizedKey : String → Except GoError (List Nat)
  /-- The digest `sha256.Sum256`. -/
  sha256 : List Nat → List Nat
  /-- The encoder `base64.RawStdEncoding.EncodeToString`. -/
  RawStdEncodingEncodeToString : List Nat → String
  /-- The encoder `base64.StdEncoding.EncodeToString`. -/
  StdEncodingEncodeToString : String → String
  /-- Reading, parsing and executing the template `cloud-config.yaml` with a
  public key. -/
  executeCloudConfig : String → Except GoError String
  /-- The value of `uuid.NewString()`. -/
  uuidNewString : String
  /-- The library function `strconv.Quote`. -/
  Quote : String → String

/-- The library function `cryptoSsh.FingerprintSHA256` on a key blob. -/
def FingerprintSHA256 (env : Env) (blob : List Nat) : String :=
  "SHA256:" ++ env.RawStdEncodingEncodeToString (env.sha256 blob)

/-! ## `oracle.go` -/

/-- The function `generateSSHKeyFingerprint`, returning the Go pair
`(string, error)`. -/
def generateSSHKeyFingerprint (env : Env) (publicKey : String) : String × Option GoError :=
  match env.ParseAuthorizedKey publicKey with
  | .error err => ("", some err)
  | .ok pubKey => (FingerprintSHA256 env pubKey, none)

/-- The method `generateCloudConfig`. -/
def generateCloudConfig (env : Env) (publicKey : String) : Except GoError String :=
  env.executeCloudConfig publicKey

/-- The method `upsertPublicKey`. The name built from the machine id cut to
24 bytes and a UUID is only logged. -/
def upsertPublicKey {σ : Type} (env : Env) (publicKey machineID : String) :
    Go σ InstanceSourceViaImageDetails := do
  match generateSSHKeyFingerprint env publicKey with
  | (_, some err) =>
    returnErr (.wrap "failed to generate fingerprint for public ssh key" err)
  | (_fingerprint, none) =>
    let machineID := if machineID.utf8ByteSize ≥ 24 then machineID.take 24 else machineID
    let _name := machineID ++ "-" ++ env.uuidNewString.take 8
    match generateCloudConfig env publicKey with
    | .error err => returnErr (.wrap "failed to generate cloud config" err)
    | .ok cloudInitData =>
      let _encodedCloudInitData := env.StdEncodingEncodeToString cloudInitData
      pure {
        ImageId := none
        LaunchOptions := some {
          BootVolumeType := InstanceSourceBootVolumeTypeParavirtualized
          NetworkType := InstanceLaunchOptionsNetworkTypeParavirtualized
          IsConsistentVolumeNamingEnabled := some true }
        KmsKeyId := none }

/-- The method `findImage`. -/
def findImage {σ : Type} (b : Backend σ) (compartmentID diskImage : String) : Go σ Image := do
  let request : ListImagesRequest :=
    { CompartmentId := some compartmentID, DisplayName := some diskImage }
  let response ← invoke (fun s => b.ListImages s request) (.ListImages request)
  match response with
  | [] => returnErr (.plain ("image " ++ diskImage ++ " not found"))
  | first :: _ => pure first

/-- The loop `for _, v := range items { if *v.DisplayName == name { found = &v;
break } }` of `createOrGetNetwork`: the display name of every visited item is
dereferenced. -/
def firstByDisplayName {σ ρ : Type} (displayName : ρ → Option String) (name : String) :
    List ρ → Go σ (Option ρ)
  | [] => pure none
  | v :: rest => do
    let n ← deref (displayName v)
    if n == name then pure (some v) else firstByDisplayName displayName name rest

/-- The method `createOrGetNetwork`. -/
def createOrGetNetwork {σ : Type} (b : Backend σ)
    (compartmentID availabilityDomain _machineID : String) : Go σ (Vcn × Subnet) := do
  -- Check if VCN exists
  let listVcnRequest : ListVcnsRequest := { CompartmentId := some compartmentID }
  let vcnResponse ← invoke (fun s => b.ListVcns s listVcnRequest) (.ListVcns listVcnRequest)
  let vcnFound ← firstByDisplayName Vcn.DisplayName "devpod-vcn" vcnResponse
  -- Create VCN if it doesn't exist
  let vcn ← (match vcnFound with
    | some v => pure v
    | none =>
      let createVcnRequest : CreateVcnDetails := {
        CompartmentId := some compartmentID
        DisplayName := some "devpod-vcn"
        CidrBlock := some "10.0.0.0/16"
        DnsLabel := some "devpodvcn"
        FreeformTags := [(labelType, labelTypeDevPod)] }
      invoke (fun s => b.CreateVcn s createVcnRequest) (.CreateVcn createVcnRequest) : Go σ Vcn)
  -- Check if internet gateway exists
  let listIgRequest : ListInternetGatewaysRequest :=
    { CompartmentId := some compartmentID, VcnId := vcn.Id }
  let igResponse ←
    invoke (fun s => b.ListInternetGateways s listIgRequest) (.ListInternetGateways listIgRequest)
  let igFound ← firstByDisplayName InternetGateway.DisplayName "devpod-ig" igResponse
  -- Create internet gateway if it doesn't exist
  let ig ← (match igFound with
    | some i => pure i
    | none =>
      let createIgRequest : CreateInternetGatewayDetails := {
        CompartmentId := some compartmentID
        DisplayName := some "devpod-ig"
        VcnId := vcn.Id
        IsEnabled := some true
        FreeformTags := [(labelType, labelTypeDevPod)] }
      invoke (fun s => b.CreateInternetGateway s createIgRequest)
        (.CreateInternetGateway createIgRequest) : Go σ InternetGateway)
  -- Check if route table exists
  let listRtRequest : ListRouteTablesRequest :=
    { CompartmentId := some compartmentID, VcnId := vcn.Id }
  let rtResponse ←
    invoke (fun s => b.ListRouteTables s listRtRequest) (.ListRouteTables listRtRequest)
  let rtFound ← firstByDisplayName RouteTable.DisplayName "devpod-rt" rtResponse
  -- Create route table if it doesn't exist
  let rt ← (match rtFound with
    | some r => pure r
    | none =>
      let createRtRequest : CreateRouteTableDetails := {
        CompartmentId := some compartmentID
        DisplayName := some "devpod-rt"
        VcnId := vcn.Id
        RouteRules := [{
          NetworkEntityId := ig.Id
          Destination := some "0.0.0.0/0"
          DestinationType := RouteRuleDestinationTypeCidrBlock }]
        FreeformTags := [(labelType, labelTypeDevPod)] }
      invoke (fun s => b.CreateRouteTable s createRtRequest)
        (.CreateRouteTable createRtRequest) : Go σ RouteTable)
  -- Check if subnet exists
  let listSubnetRequest : ListSubnetsRequest :=
    { CompartmentId := some compartmentID, VcnId := vcn.Id }
  let subnetResponse ←
    invoke (fun s => b.ListSubnets s listSubnetRequest) (.ListSubnets listSubnetRequest)
  let subnetFound ← firstByDisplayName Subnet.DisplayName "devpod-subnet" subnetResponse
  -- Create subnet if it doesn't exist
  let subnet ← (match subnetFound with
    | some s => pure s
    | none =>
      let createSubnetRequest : CreateSubnetDetails := {
        CompartmentId := some compartmentID
        DisplayName := some "devpod-subnet"
        VcnId := vcn.Id
        CidrBlock := some "10.0.0.0/24"
        RouteTableId := rt.Id
        DnsLabel := some "devpodsubnet"
        AvailabilityDomain := some availabilityDomain
        FreeformTags := [(labelType, labelTypeDevPod)] }
      invoke (fun s => b.CreateSubnet s createSubnetRequest)
        (.CreateSubnet createSubnetRequest) : Go σ Subnet)
  pure (vcn, subnet)

/-- The method `BuildInstanceOptions`. The metadata entry `user_data` encodes
the text of the cloud config generated from the public key. -/
def BuildInstanceOptions {σ : Type} (env : Env) (b : Backend σ)
    (machineID diskImage diskSizeGB machineType _region availabilityDomain compartmentID
      publicKey : String) : Go σ LaunchInstanceRequest := do
  -- Get source details
  let sourceDetails ← upsertPublicKey env publicKey machineID
  -- Find image
  let image ← wrapErr (findImage b compartmentID diskImage) "failed to find image"
  let sourceDetails := { sourceDetails with ImageId := image.Id }
  -- Create or get VCN and subnet
  let (_vcn, subnet) ←
    wrapErr (createOrGetNetwork b compartmentID availabilityDomain machineID)
      "failed to create or get network"
  -- Parse disk size
  match strconv.Atoi diskSizeGB with
  | .error err => returnErr (.wrap "failed to parse disk size" (err.toError env.Quote))
  | .ok _diskSize =>
    let cloudConfigText : String :=
      match generateCloudConfig env publicKey with
      | .ok text => text
      | .error _ => ""
    -- Create instance request
    pure {
      AvailabilityDomain := some availabilityDomain
      CompartmentId := some compartmentID
      Shape := some machineType
      DisplayName := some ("devpod-" ++ machineID)
      SourceDetails := some sourceDetails
      CreateVnicDetails := some { SubnetId := subnet.Id, AssignPublicIp := some true }
      Metadata := [("user_data", env.StdEncodingEncodeToString cloudConfigText)]
      FreeformTags := [(labelMachineID, machineID), (labelType, labelTypeDevPod)] }

/-- The loop of `GetInstance`: the first instance whose freeform tag
`machine-id` is the machine id. -/
def firstByMachineID (machineID : String) : List Instance → Option Instance
  | [] => none
  | inst :: rest =>
    if mapIndex inst.FreeformTags labelMachineID == machineID then some inst
    else firstByMachineID machineID rest

/-- The method `GetInstance`. -/
def GetInstance {σ : Type} (b : Backend σ) (machineID : String) : Go σ Instance := do
  if machineID == "" then
    returnErr MissingMachineID
  else
    -- List instances with the machine ID tag
    let request : ListInstancesRequest := { DisplayName := some ("devpod-" ++ machineID) }
    let response ← invoke (fun s => b.ListInstances s request) (.ListInstances request)
    -- Find the instance with the matching machine ID
    match firstByMachineID machineID response with
    | some inst => pure inst
    | none => returnErr MissingServer

/-- The method `DeleteInstance`. -/
def DeleteInstance {σ : Type} (b : Backend σ) (machineID : String) : Go σ Unit := do
  match ← attempt (GetInstance b machineID) with
  | .error err =>
    if IsNotFound (some err) then pure () else returnErr err
  | .ok inst =>
    -- Terminate instance
    let request : TerminateInstanceRequest :=
      { InstanceId := inst.Id, PreserveBootVolume := some false }
    match ← attempt (invoke (fun s => b.TerminateInstance s request) (.TerminateInstance request)) with
    | .error err =>
      if !IsNotFound (some err) then returnErr err else pure ()
    | .ok _ => pure ()

/-- The method `StartInstance`. -/
def StartInstance {σ : Type} (b : Backend σ) (machineID : String) : Go σ Unit := do
  let inst ← GetInstance b machineID
  -- Check if instance is already running
  if inst.LifecycleState == InstanceLifecycleStateRunning then
    pure ()
  else
    -- Start instance
    let request : InstanceActionRequest :=
      { InstanceId := inst.Id, Action := InstanceActionActionStart }
    let _ ← invoke (fun s => b.InstanceAction s request) (.InstanceAction request)
    pure ()

/-- The method `StopInstance`. -/
def StopInstance {σ : Type} (b : Backend σ) (machineID : String) : Go σ Unit := do
  let inst ← GetInstance b machineID
  -- Check if instance is already stopped
  if inst.LifecycleState == InstanceLifecycleStateStopped then
    pure ()
  else
    -- Stop instance
    let request : InstanceActionRequest :=
      { InstanceId := inst.Id, Action := InstanceActionActionStop }
    let _ ← invoke (fun s => b.InstanceAction s request) (.InstanceAction request)
    pure ()

/-- The method `GetInstanceStatus`. -/
def GetInstanceStatus {σ : Type} (b : Backend σ) (machineID : String) : Go σ String := do
  match ← attempt (GetInstance b machineID) with
  | .error err =>
    if IsNotFound (some err) then pure "not_found" else returnErr err
  | .ok inst =>
    if inst.LifecycleState == InstanceLifecycleStateRunning then pure "running"
    else if inst.LifecycleState == InstanceLifecycleStateStopped then pure "stopped"
    else if inst.LifecycleState == InstanceLifecycleStateTerminated then pure "terminated"
    else if inst.LifecycleState == InstanceLifecycleStateProvisioning
        || inst.LifecycleState == InstanceLifecycleStateStarting then pure "starting"
    else if inst.LifecycleState == InstanceLifecycleStateStopping then pure "stopping"
    else pure inst.LifecycleState

/-- The method `GetInstanceIP`. -/
def GetInstanceIP {σ : Type} (b : Backend σ) (machineID : String) : Go σ String := do
  let inst ← GetInstance b machineID
  -- Get VNIC attachments
  let vnicRequest : ListVnicAttachmentsRequest := { InstanceId := inst.Id }
  let vnicResponse ←
    invoke (fun s => b.ListVnicAttachments s vnicRequest) (.ListVnicAttachments vnicRequest)
  match vnicResponse with
  | [] =>
    let id ← deref inst.Id
    returnErr (.plain ("no VNIC attachments found for instance " ++ id))
  | attachment :: _ =>
    -- Get VNIC
    let vnicGetRequest : GetVnicRequest := { VnicId := attachment.VnicId }
    let vnic ← invoke (fun s => b.GetVnic s vnicGetRequest) (.GetVnic vnicGetRequest)
    -- Return public IP if available, otherwise private IP
    match vnic.PublicIp with
    | some publicIp => pure publicIp
    | none => deref vnic.PrivateIp

/-! ## A reference backend -/

/-- The resources held by a reference backend, and a counter for the
identifiers it hands out. -/
structure CloudState where
  vcns : List Vcn
  internetGateways : List InternetGateway
  routeTables : List RouteTable
  subnets : List Subnet
  images : List Image
  instances : List Instance
  serial : Nat
deriving DecidableEq, Repr

/-- The identifier given to the next created resource of a kind. -/
def CloudState.freshId (s : CloudState) (kind : String) : Option String :=
  some ("ocid1." ++ kind ++ "." ++ toString s.serial)

/-- A reference backend in which every call succeeds, a list call returns the
stored resources matching the request in the order of their creation, and a
create call stores the new resource, which later list calls therefore return.
Instances are listed by display name and leave the listing when terminated. -/
def simBackend : Backend CloudState where
  ListVcns s req := (.ok (s.vcns.filter fun v => v.CompartmentId == req.CompartmentId), s)
  CreateVcn s d :=
    let v : Vcn := {
      Id := s.freshId "vcn"
      DisplayName := d.DisplayName
      CompartmentId := d.CompartmentId
      CidrBlock := d.CidrBlock }
    (.ok v, { s with vcns := s.vcns ++ [v], serial := s.serial + 1 })
  ListInternetGateways s req :=
    (.ok (s.internetGateways.filter fun g =>
      g.CompartmentId == req.CompartmentId && g.VcnId == req.VcnId), s)
  CreateInternetGateway s d :=
    let g : InternetGateway := {
      Id := s.freshId "internetgateway"
      DisplayName := d.DisplayName
      CompartmentId := d.CompartmentId
      VcnId := d.VcnId
      IsEnabled := d.IsEnabled }
    (.ok g, { s with internetGateways := s.internetGateways ++ [g], serial := s.serial + 1 })
  ListRouteTables s req :=
    (.ok (s.routeTables.filter fun r =>
      r.CompartmentId == req.CompartmentId && r.VcnId == req.VcnId), s)
  CreateRouteTable s d :=
    let r : RouteTable := {
      Id := s.freshId "routetable"
      DisplayName := d.DisplayName
      CompartmentId := d.CompartmentId
      VcnId := d.VcnId
      RouteRules := d.RouteRules }
    (.ok r, { s with routeTables := s.routeTables ++ [r], serial := s.serial + 1 })
  ListSubnets s req :=
    (.ok (s.subnets.filter fun n =>
      n.CompartmentId == req.CompartmentId && n.VcnId == req.VcnId), s)
  CreateSubnet s d :=
    let n : Subnet := {
      Id := s.freshId "subnet"
      DisplayName := d.DisplayName
      CompartmentId := d.CompartmentId
      VcnId := d.VcnId
      CidrBlock := d.CidrBlock
      RouteTableId := d.RouteTableId
      AvailabilityDomain := d.AvailabilityDomain }
    (.ok n, { s with subnets := s.subnets ++ [n], serial := s.serial + 1 })
  ListImages s req := (.ok (s.images.filter fun i => i.DisplayName == req.DisplayName), s)
  ListInstances s req :=
    (.ok (s.instances.filter fun i => i.DisplayName == req.DisplayName), s)
  TerminateInstance s req :=
    if s.instances.any (fun i => i.Id == req.InstanceId) then
      (.ok (), { s with instances := s.instances.filter fun i => i.Id != req.InstanceId })
    else
      (.error (.service 404 "instance not found"), s)
  InstanceAction s req :=
    match s.instances.find? (fun i => i.Id == req.InstanceId) with
    | none => (.error (.service 404 "instance not found"), s)
    | some i =>
      let target : String :=
        if req.Action == InstanceActionActionStart then InstanceLifecycleStateStarting
        else InstanceLifecycleStateStopping
      let moved : Instance := { i with LifecycleState := target }
      (.ok moved,
        { s with instances := s.instances.map fun j => if j.Id == req.InstanceId then moved else j })
  ListVnicAttachments s _ := (.ok [], s)
  GetVnic s _ := (.error (.service 404 "vnic not found"), s)
  LaunchInstance s req :=
    let i : Instance := {
      Id := s.freshId "instance"
      DisplayName := req.DisplayName
      LifecycleState := InstanceLifecycleStateProvisioning
      FreeformTags := req.FreeformTags }
    (.ok i, { s with instances := s.instances ++ [i], serial := s.serial + 1 })

/-- A backend holding no resource at all. -/
def emptyCloud : CloudState :=
  { vcns := [], internetGateways := [], routeTables := [], subnets := [], images := [],
    instances := [], serial := 0 }

/-- The start of a run: a backend state and no call issued yet. -/
def World.start {σ : Type} (s : σ) : World σ := ⟨s, []⟩

/-- A running instance of machine `m1`. -/
def runningInstance : Instance :=
  { Id := some "ocid1.instance.7"
    DisplayName := some "devpod-m1"
    LifecycleState := "RUNNING"
    FreeformTags := [("machine-id", "m1"), ("type", "devpod")] }

/-- A stopped instance of machine `m2`. -/
def stoppedInstance : Instance :=
  { Id := some "ocid1.instance.8"
    DisplayName := some "devpod-m2"
    LifecycleState := "STOPPED"
    FreeformTags := [("type", "devpod"), ("machine-id", "m2")] }

/-- An instance named after machine `m1` that carries the tag of another
machine. -/
def strayInstance : Instance :=
  { Id := some "ocid1.instance.6"
    DisplayName := some "devpod-m1"
    LifecycleState := "RUNNING"
    FreeformTags := [("machine-id", "other")] }

/-- A backend holding one running instance of machine `m1`. -/
def oneInstanceCloud : CloudState :=
  { emptyCloud with instances := [runningInstance], serial := 8 }

/-- A backend holding a stray instance, the running instance of `m1` and the
stopped instance of `m2`. -/
def threeInstanceCloud : CloudState :=
  { emptyCloud with
    instances := [strayInstance, runningInstance, stoppedInstance], serial := 9 }

/-- The SDK method a call goes to. -/
def Call.name : Call → String
  | .ListVcns _ => "ListVcns"
  | .CreateVcn _ => "CreateVcn"
  | .ListInternetGateways _ => "ListInternetGateways"
  | .CreateInternetGateway _ => "CreateInternetGateway"
  | .ListRouteTables _ => "ListRouteTables"
  | .CreateRouteTable _ => "CreateRouteTable"
  | .ListSubnets _ => "ListSubnets"
  | .CreateSubnet _ => "CreateSubnet"
  | .ListImages _ => "ListImages"
  | .ListInstances _ => "ListInstances"
  | .TerminateInstance _ => "TerminateInstance"
  | .InstanceAction _ => "InstanceAction"
  | .ListVnicAttachments _ => "ListVnicAttachments"
  | .GetVnic _ => "GetVnic"
  | .LaunchInstance _ => "LaunchInstance"

/-- An environment in which every key line parses, the cloud config renders
to the key itself, and a string is quoted as it is (as `strconv.Quote` does
for a string without quote, backslash or unprintable character). -/
def sampleEnv : Env :=
  { ParseAuthorizedKey := fun _ => .ok []
    sha256 := fun blob => blob
    RawStdEncodingEncodeToString := fun _ => ""
    StdEncodingEncodeToString := fun text => text
    executeCloudConfig := fun publicKey => .ok publicKey
    uuidNewString := "00000000-0000-0000-0000-000000000000"
    Quote := fun text => "\"" ++ text ++ "\"" }

/-- The VCN a first run of `createOrGetNetwork` creates in compartment `c1` of
an empty backend. -/
def reservedVcn : Vcn := ⟨some "ocid1.vcn.0", some "devpod-vcn", some "c1", some "10.0.0.0/16"⟩

/-- The internet gateway created by that run. -/
def reservedIg : InternetGateway :=
  ⟨some "ocid1.internetgateway.1", some "devpod-ig", some "c1", some "ocid1.vcn.0", some true⟩

/-- The route table created by that run. -/
def reservedRt : RouteTable :=
  ⟨some "ocid1.routetable.2", some "devpod-rt", some "c1", some "ocid1.vcn.0",
    [⟨some "ocid1.internetgateway.1", some "0.0.0.0/0", "CIDR_BLOCK"⟩]⟩

/-- The subnet created by that run in availability domain `AD-1`. -/
def reservedSubnet : Subnet :=
  ⟨some "ocid1.subnet.3", some "devpod-subnet", some "c1", some "ocid1.vcn.0",
    some "10.0.0.0/24", some "ocid1.routetable.2", some "AD-1"⟩

/-- The four reserved network resources of compartment `c1`, as a first run of
`createOrGetNetwork` leaves them. -/
def networkCloud : CloudState :=
  { emptyCloud with
    vcns := [reservedVcn]
    internetGateways := [reservedIg]
    routeTables := [reservedRt]
    subnets := [reservedSubnet]
    serial := 4 }

/-- A VCN of compartment `c1` whose display name is absent. -/
def unnamedVcn : Vcn := ⟨some "ocid1.vcn.9", none, some "c1", some "172.16.0.0/16"⟩

/-- The four reserved network resources of compartment `c1`, with a VCN
without display name listed ahead of `devpod-vcn`. -/
def unnamedAheadCloud : CloudState :=
  { networkCloud with vcns := unnamedVcn :: networkCloud.vcns }

/-- A compartment `c1` holding a VCN without display name and none of the
reserved network resources. -/
def unnamedOnlyCloud : CloudState :=
  { emptyCloud with vcns := [unnamedVcn], serial := 10 }

/-- A backend holding the image `Ubuntu-22.04` and no network resource. -/
def imageOnlyCloud : CloudState :=
  { emptyCloud with images := [⟨some "ocid1.image.5", some "Ubuntu-22.04"⟩], serial := 6 }

/-- A backend holding the image `Ubuntu-22.04` and the four reserved network
resources of compartment `c1`. -/
def readyCloud : CloudState :=
  { networkCloud with images := [⟨some "ocid1.image.5", some "Ubuntu-22.04"⟩], serial := 6 }

/-- The request built for machine `devtest-0123456789-0123456789` on
`readyCloud`. -/
def sampleRequest : LaunchInstanceRequest :=
  { AvailabilityDomain := some "AD-1"
    CompartmentId := some "c1"
    Shape := some "VM.Standard.E4.Flex"
    DisplayName := some "devpod-devtest-0123456789-0123456789"
    SourceDetails := some {
      ImageId := some "ocid1.image.5"
      LaunchOptions := some {
        BootVolumeType := "PARAVIRTUALIZED"
        NetworkType := "PARAVIRTUALIZED"
        IsConsistentVolumeNamingEnabled := some true }
      KmsKeyId := none }
    CreateVnicDetails := some { SubnetId := some "ocid1.subnet.3", AssignPublicIp := some true }
    Metadata := [("user_data", "ssh-rsa AAAA")]
    FreeformTags := [("machine-id", "devtest-0123456789-0123456789"), ("type", "devpod")] }

/-- A build for machine `devtest` with disk size `50` on a backend holding the
image and no network resource. -/
def freshBuild : Res CloudState LaunchInstanceRequest :=
  BuildInstanceOptions sampleEnv simBackend "devtest" "Ubuntu-22.04" "50" "VM.Standard.E4.Flex"
    "us-ashburn-1" "AD-1" "c1" "ssh-rsa AAAA" (World.start imageOnlyCloud)

/-- The same build with the disk size `abc`, which does not parse. -/
def failedBuild : Res CloudState LaunchInstanceRequest :=
  BuildInstanceOptions sampleEnv simBackend "devtest" "Ubuntu-22.04" "abc" "VM.Standard.E4.Flex"
    "us-ashburn-1" "AD-1" "c1" "ssh-rsa AAAA" (World.start imageOnlyCloud)

/-- Whether a run ended with an error. -/
def Res.isErr {σ α : Type} : Res σ α → Bool
  | .err _ _ => true
  | _ => false

/-- Whether a run ended with a value. -/
def Res.isOk {σ α : Type} : Res σ α → Bool
  | .ok _ _ => true
  | _ => false

/-! ## Specification predicates -/

/-- Every network resource of compartment `c` carries a display name, and none
carries the reserved display name of its kind. -/
def CloudState.Unreserved (s : CloudState) (c : String) : Prop :=
  (∀ v ∈ s.vcns, v.CompartmentId = some c →
    ∃ n, v.DisplayName = some n ∧ n ≠ "devpod-vcn") ∧
  (∀ g ∈ s.internetGateways, g.CompartmentId = some c →
    ∃ n, g.DisplayName = some n ∧ n ≠ "devpod-ig") ∧
  (∀ r ∈ s.routeTables, r.CompartmentId = some c →
    ∃ n, r.DisplayName = some n ∧ n ≠ "devpod-rt") ∧
  (∀ n ∈ s.subnets, n.CompartmentId = some c →
    ∃ d, n.DisplayName = some d ∧ d ≠ "devpod-subnet")

/-- Every call a computation issues, from whatever world it starts and however
it ends, satisfies `P`. -/
def Issues {σ α : Type} (P : Call → Prop) (m : Go σ α) : Prop :=
  ∀ w, ∃ cs, (m w).world.trace = w.trace ++ cs ∧ ∀ c ∈ cs, P c

/-- The SDK methods `BuildInstanceOptions` reaches: list calls, and the create
calls of the four network resources. -/
def buildCallNames : List String :=
  ["ListImages", "ListVcns", "CreateVcn", "ListInternetGateways", "CreateInternetGateway",
   "ListRouteTables", "CreateRouteTable", "ListSubnets", "CreateSubnet"]

/-- The resource `r` is the first of `items` whose display name is `name`, and
every item listed ahead of it carries some other display name. -/
def FirstNamed {ρ : Type} (displayName : ρ → Option String) (name : String)
    (items : List ρ) (r : ρ) : Prop :=
  ∃ pre post, items = pre ++ r :: post ∧ displayName r = some name ∧
    ∀ x ∈ pre, ∃ n, displayName x = some n ∧ n ≠ name

/-- Every one of `items` carries a display name other than `name`. -/
def NoneNamed {ρ : Type} (displayName : ρ → Option String) (name : String)
    (items : List ρ) : Prop :=
  ∀ x ∈ items, ∃ n, displayName x = some n ∧ n ≠ name

/-- The instance `inst` is the first of `items` whose freeform tag
`machine-id` is `machineID`. -/
def FirstTagged (machineID : String) (items : List Instance) (inst : Instance) : Prop :=
  ∃ pre post, items = pre ++ inst :: post ∧
    inst.FreeformTags.lookup "machine-id" = some machineID ∧
    ∀ x ∈ pre, x.FreeformTags.lookup "machine-id" ≠ some machineID

/-- No instance of `items` carries the freeform tag `machine-id = machineID`. -/
def NoneTagged (machineID : String) (items : List Instance) : Prop :=
  ∀ x ∈ items, x.FreeformTags.lookup "machine-id" ≠ some machineID

/-- The reference backend with a terminate call that always answers 404, as
when the instance vanished between lookup and termination. -/
def goneBackend : Backend CloudState :=
  { simBackend with
    TerminateInstance := fun s _ => (.error (.service 404 "NotAuthorizedOrNotFound"), s) }

/-- The reference backend with a terminate call that always answers 500. -/
def brokenBackend : Backend CloudState :=
  { simBackend with
    TerminateInstance := fun s _ => (.error (.service 500 "InternalError: not found"), s) }

/-- The reference backend with an image listing that ignores the display-name
filter of the request. -/
def unfilteredBackend : Backend CloudState :=
  { simBackend with ListImages := fun s _ => (.ok s.images, s) }

/-- The reference backend with one network-interface attachment per instance,
whose interface is `vnic`. -/
def vnicBackend (vnic : Vnic) : Backend CloudState :=
  { simBackend with
    ListVnicAttachments := fun s _ => (.ok [⟨some "ocid1.vnic.1"⟩, ⟨some "ocid1.vnic.2"⟩], s)
    GetVnic := fun s _ => (.ok vnic, s) }

/-- A backend whose instance of machine `m1` carries no id. -/
def idlessCloud : CloudState :=
  { emptyCloud with
    instances := [{ runningInstance with Id := none }], serial := 8 }

/-- A decimal integer, in the words of the specification: an optional sign
followed by one or more decimal digits. -/
def isDecimalInteger (s : String) : Bool :=
  !(splitSign s.data).2.isEmpty &&
    (splitSign s.data).2.all fun c => decide ('0' ≤ c ∧ c ≤ '9')

/-- The alphabet of the standard base64 encoding. -/
def base64StdAlphabet : List Char :=
  "ABCDEFGHIJKLMNOPQRSTUVWXYZabcdefghijklmnopqrstuvwxyz0123456789+/".data

/-- The character of a six-bit value in the standard base64 encoding. -/
def base64Char (n : Nat) : Char := base64StdAlphabet.getD (n % 64) 'A'

/-- The standard base64 encoding of a list of bytes without padding: three
bytes give four characters, a rest of one byte gives two and a rest of two
bytes gives three. -/
def base64RawChars : List Nat → List Char
  | [] => []
  | [a] => [base64Char (a / 4), base64Char (a % 4 * 16)]
  | [a, b] => [base64Char (a / 4), base64Char (a % 4 * 16 + b / 16), base64Char (b % 16 * 4)]
  | a :: b :: c :: rest =>
    base64Char (a / 4) :: base64Char (a % 4 * 16 + b / 16) ::
      base64Char (b % 16 * 4 + c / 64) :: base64Char (c % 64) :: base64RawChars rest

/-- The library encoder `base64.RawStdEncoding.EncodeToString`. -/
def base64.RawStdEncoding.EncodeToString (bytes : List Nat) : String :=
  String.mk (base64RawChars bytes)

/-- The fields of a line, separated by single blanks. -/
def fieldsOf : List Char → List (List Char)
  | [] => [[]]
  | c :: cs =>
    if c = ' ' then [] :: fieldsOf cs
    else
      match fieldsOf cs with
      | [] => [[c]]
      | f :: fs => (c :: f) :: fs

/-- An environment for evaluation. A line parses as a key when its first field
is a key type and a second field follows, whose characters stand for the key
blob; the digest is a stand-in of 32 bytes made from the blob; the unpadded
encoder is the standard one. -/
def toyEnv : Env :=
  { sampleEnv with
    ParseAuthorizedKey := fun line =>
      match fieldsOf line.data with
      | kind :: key :: _ =>
        if (kind = "ssh-rsa".data ∨ kind = "ssh-ed25519".data) ∧ key ≠ [] then
          .ok (key.map Char.toNat)
        else .error (.plain "ssh: no key found")
      | _ => .error (.plain "ssh: no key found")
    sha256 := fun blob => (blob ++ List.replicate 32 0).take 32
    RawStdEncodingEncodeToString := base64.RawStdEncoding.EncodeToString }

/-- The reference backend holding `devpod-vcn` and `devpod-ig` of compartment
`c1`, and neither route table nor subnet. -/
def halfCloud : CloudState :=
  { emptyCloud with vcns := [reservedVcn], internetGateways := [reservedIg], serial := 2 }

/-- The reference backend holding `devpod-vcn` and, in that VCN, an internet
gateway without display name. -/
def unnamedIgCloud : CloudState :=
  { emptyCloud with
    vcns := [reservedVcn]
    internetGateways :=
      [⟨some "ocid1.internetgateway.9", none, some "c1", some "ocid1.vcn.0", some true⟩]
    serial := 10 }

/-- The error of an answer, if it is one. -/
def errorOf {α : Type} : Except GoError α → Option GoError
  | .ok _ => none
  | .error e => some e

/-- How the backend in state `s` answers a call: the error, if the call fails,
and the next state. -/
def Backend.answer {σ : Type} (b : Backend σ) (s : σ) : Call → Option GoError × σ
  | .ListVcns req => (errorOf (b.ListVcns s req).1, (b.ListVcns s req).2)
  | .CreateVcn req => (errorOf (b.CreateVcn s req).1, (b.CreateVcn s req).2)
  | .ListInternetGateways req =>
    (errorOf (b.ListInternetGateways s req).1, (b.ListInternetGateways s req).2)
  | .CreateInternetGateway req =>
    (errorOf (b.CreateInternetGateway s req).1, (b.CreateInternetGateway s req).2)
  | .ListRouteTables req => (errorOf (b.ListRouteTables s req).1, (b.ListRouteTables s req).2)
  | .CreateRouteTable req => (errorOf (b.CreateRouteTable s req).1, (b.CreateRouteTable s req).2)
  | .ListSubnets req => (errorOf (b.ListSubnets s req).1, (b.ListSubnets s req).2)
  | .CreateSubnet req => (errorOf (b.CreateSubnet s req).1, (b.CreateSubnet s req).2)
  | .ListImages req => (errorOf (b.ListImages s req).1, (b.ListImages s req).2)
  | .ListInstances req => (errorOf (b.ListInstances s req).1, (b.ListInstances s req).2)
  | .TerminateInstance req =>
    (errorOf (b.TerminateInstance s req).1, (b.TerminateInstance s req).2)
  | .InstanceAction req => (errorOf (b.InstanceAction s req).1, (b.InstanceAction s req).2)
  | .ListVnicAttachments req =>
    (errorOf (b.ListVnicAttachments s req).1, (b.ListVnicAttachments s req).2)
  | .GetVnic req => (errorOf (b.GetVnic s req).1, (b.GetVnic s req).2)
  | .LaunchInstance req => (errorOf (b.LaunchInstance s req).1, (b.LaunchInstance s req).2)

/-- Issued in turn from state `s`, the calls `cs` all succeed and leave the
backend in state `s1`. -/
def AllOk {σ : Type} (b : Backend σ) : σ → List Call → σ → Prop
  | s, [], s1 => s1 = s
  | s, c :: cs, s1 => (b.answer s c).1 = none ∧ AllOk b (b.answer s c).2 cs s1

/-- A computation hands a failure of the backend on: from whatever world it
starts, either every call it issues succeeds and it does not end with an
error, or every call but the last succeeds, the last one fails, and the
computation ends, in the state that call left, with the error of that call. -/
def Propagates {σ α : Type} (b : Backend σ) (m : Go σ α) : Prop :=
  ∀ w, ∃ cs, (m w).world.trace = w.trace ++ cs ∧
    ((AllOk b w.state cs (m w).world.state ∧ (m w).isErr = false) ∨
     (∃ pre call s e, cs = pre ++ [call] ∧ AllOk b w.state pre s ∧
        b.answer s call = (some e, (m w).world.state) ∧ m w = .err e (m w).world))

/-- The SDK methods `createOrGetNetwork` reaches. -/
def networkCallNames : List String :=
  ["ListVcns", "CreateVcn", "ListInternetGateways", "CreateInternetGateway",
   "ListRouteTables", "CreateRouteTable", "ListSubnets", "CreateSubnet"]

/-- The reference backend with a gateway create call that always answers
500. -/
def noGatewayBackend : Backend CloudState :=
  { simBackend with
    CreateInternetGateway := fun s _ => (.error (.service 500 "InternalError"), s) }

/-! ## The monad of Go computations -/

section Run

variable {σ α β : Type}

@[simp]
theorem run_pure (a : α) (w : World σ) : (pure a : Go σ α) w = .ok a w := rfl

@[simp]
theorem run_bind (m : Go σ α) (f : α → Go σ β) (w : World σ) :
    (m >>= f) w = Go.bind m f w := rfl

theorem bind_ok {m : Go σ α} {f : α → Go σ β} {w w1 : World σ} {a : α}
    (h : m w = .ok a w1) : Go.bind m f w = f a w1 := by
  simp [Go.bind, h]

theorem bind_err {m : Go σ α} {f : α → Go σ β} {w w1 : World σ} {e : GoError}
    (h : m w = .err e w1) : Go.bind m f w = .err e w1 := by
  simp [Go.bind, h]

theorem bind_panic {m : Go σ α} {f : α → Go σ β} {w w1 : World σ}
    (h : m w = .panic w1) : Go.bind m f w = .panic w1 := by
  simp [Go.bind, h]

theorem invoke_ok {op : σ → Except GoError α × σ} {c : Call} {w : World σ} {a : α} {s : σ}
    (h : op w.state = (.ok a, s)) : invoke op c w = .ok a ⟨s, w.trace ++ [c]⟩ := by
  simp [invoke, h]

theorem invoke_err {op : σ → Except GoError α × σ} {c : Call} {w : World σ} {e : GoError}
    {s : σ} (h : op w.state = (.error e, s)) :
    invoke op c w = .err e ⟨s, w.trace ++ [c]⟩ := by
  simp [invoke, h]

end Run

/-! ## String search -/

theorem containsChars_iff (s sub : List Char) : containsChars s sub = true ↔ sub <:+: s := by
  induction s with
  | nil => cases sub <;> simp [containsChars, List.isPrefixOf]
  | cons c cs ih =>
    simp only [containsChars, Bool.or_eq_true, ih, List.infix_cons_iff,
      List.isPrefixOf_iff_prefix]

theorem strings.Contains_iff (s substr : String) :
    strings.Contains s substr = true ↔ substr.data <:+: s.data :=
  containsChars_iff s.data substr.data

/-! ## C1: the not-found classifier -/

/-- C1: `IsNotFound` is false on the nil error; on an error that is or wraps a
service error it is true exactly when the HTTP status code is 404; on every
other error it is true exactly when the message contains "not found",
"NotFound" or "does not exist" as a (case-sensitive) substring; and it is
false on the message "some other error". -/
theorem IsNotFound_classifier :
    IsNotFound none = false ∧
    (∀ (e : GoError) (status : Int), asServiceError e = some status →
      (IsNotFound (some e) = true ↔ status = 404)) ∧
    (∀ e : GoError, asServiceError e = none →
      (IsNotFound (some e) = true ↔
        ("not found".data <:+: e.Error.data ∨ "NotFound".data <:+: e.Error.data ∨
          "does not exist".data <:+: e.Error.data))) ∧
    IsNotFound (some (.plain "some other error")) = false := by
  refine ⟨rfl, ?_, ?_, by decide⟩
  · intro e status h
    simp [IsNotFound, h]
  · intro e h
    simp [IsNotFound, h, strings.Contains_iff, or_assoc]

/-- C1 at concrete errors: a wrapped service error with status 404 is
classified as not found, and so is the plain error "resource not found". -/
theorem IsNotFound_classifier_witness :
    IsNotFound (some (.wrap "terminate" (.service 404 "gone"))) = true ∧
    IsNotFound (some (.plain "resource not found")) = true :=
  ⟨(IsNotFound_classifier.2.1 (.wrap "terminate" (.service 404 "gone")) 404 rfl).2 rfl,
   (IsNotFound_classifier.2.2.1 (.plain "resource not found") rfl).2
     (Or.inl ⟨"resource ".data, [], rfl⟩)⟩

/-! ## Instance lookup -/

section Lookup

variable {σ : Type}

theorem mapIndex_eq_iff (tags : StringMap) (machineID : String) (h : machineID ≠ "") :
    mapIndex tags labelMachineID = machineID ↔ tags.lookup "machine-id" = some machineID := by
  unfold mapIndex labelMachineID
  cases hl : List.lookup "machine-id" tags with
  | none => simpa using fun h1 => h h1.symm
  | some v => simp

theorem firstByMachineID_found {machineID : String} (h : machineID ≠ "")
    {items : List Instance} {inst : Instance} (hf : FirstTagged machineID items inst) :
    firstByMachineID machineID items = some inst := by
  obtain ⟨pre, post, rfl, hi, hpre⟩ := hf
  induction pre with
  | nil => simp [firstByMachineID, (mapIndex_eq_iff _ _ h).2 hi]
  | cons x xs ih =>
    have hx : mapIndex x.FreeformTags labelMachineID ≠ machineID := fun hx =>
      hpre x (List.mem_cons_self _ _) ((mapIndex_eq_iff _ _ h).1 hx)
    simp only [List.cons_append, firstByMachineID, beq_iff_eq, hx, if_false]
    exact ih fun y hy => hpre y (List.mem_cons_of_mem _ hy)

theorem firstByMachineID_none {machineID : String} (h : machineID ≠ "")
    {items : List Instance} (hn : NoneTagged machineID items) :
    firstByMachineID machineID items = none := by
  induction items with
  | nil => rfl
  | cons x xs ih =>
    have hx : mapIndex x.FreeformTags labelMachineID ≠ machineID := fun hx =>
      hn x (List.mem_cons_self _ _) ((mapIndex_eq_iff _ _ h).1 hx)
    simp only [firstByMachineID, beq_iff_eq, hx, if_false]
    exact ih fun y hy => hn y (List.mem_cons_of_mem _ hy)

theorem GetInstance_empty (b : Backend σ) (w : World σ) :
    GetInstance b "" w = .err (.plain "missing machine id") w := rfl

theorem GetInstance_listed (b : Backend σ) {machineID : String} (h : machineID ≠ "")
    (w : World σ) {items : List Instance} {s1 : σ}
    (hl : b.ListInstances w.state ⟨some ("devpod-" ++ machineID)⟩ = (.ok items, s1)) :
    GetInstance b machineID w =
      match firstByMachineID machineID items with
      | some inst => .ok inst ⟨s1, w.trace ++ [.ListInstances ⟨some ("devpod-" ++ machineID)⟩]⟩
      | none =>
        .err (.plain "missing server")
          ⟨s1, w.trace ++ [.ListInstances ⟨some ("devpod-" ++ machineID)⟩]⟩ := by
  simp only [GetInstance, beq_iff_eq, h, if_false, run_bind]
  rw [bind_ok (invoke_ok hl)]
  cases firstByMachineID machineID items <;> rfl

theorem GetInstance_miss (b : Backend σ) {machineID : String} (h : machineID ≠ "")
    (w : World σ) {items : List Instance} {s1 : σ}
    (hl : b.ListInstances w.state ⟨some ("devpod-" ++ machineID)⟩ = (.ok items, s1))
    (hn : NoneTagged machineID items) :
    GetInstance b machineID w =
      .err (.plain "missing server")
        ⟨s1, w.trace ++ [.ListInstances ⟨some ("devpod-" ++ machineID)⟩]⟩ := by
  rw [GetInstance_listed b h w hl, firstByMachineID_none h hn]

/-- A successful lookup issued the one list call, for the display name
`devpod-<machineID>`. -/
theorem GetInstance_trace (b : Backend σ) {machineID : String} {w w1 : World σ}
    {inst : Instance} (h : GetInstance b machineID w = .ok inst w1) :
    w1.trace = w.trace ++ [.ListInstances ⟨some ("devpod-" ++ machineID)⟩] := by
  by_cases hm : machineID = ""
  · subst hm
    rw [GetInstance_empty] at h
    cases h
  · cases hl : b.ListInstances w.state ⟨some ("devpod-" ++ machineID)⟩ with
    | mk r s1 =>
      cases r with
      | error e =>
        simp only [GetInstance, beq_iff_eq, hm, if_false, run_bind] at h
        rw [bind_err (invoke_err hl)] at h
        cases h
      | ok items =>
        rw [GetInstance_listed b hm w hl] at h
        cases hf : firstByMachineID machineID items with
        | none => rw [hf] at h; cases h
        | some i =>
          rw [hf] at h
          cases h
          rfl

/-- On a lookup miss `DeleteInstance` returns the error "missing server",
which `IsNotFound` does not classify as not found. -/
theorem DeleteInstance_miss (b : Backend σ) {machineID : String} (h : machineID ≠ "")
    (w : World σ) {items : List Instance} {s1 : σ}
    (hl : b.ListInstances w.state ⟨some ("devpod-" ++ machineID)⟩ = (.ok items, s1))
    (hn : NoneTagged machineID items) :
    DeleteInstance b machineID w =
      .err (.plain "missing server")
        ⟨s1, w.trace ++ [.ListInstances ⟨some ("devpod-" ++ machineID)⟩]⟩ := by
  have hg := GetInstance_miss b h w hl hn
  simp only [DeleteInstance, run_bind, Go.bind, attempt, hg]
  rfl

/-- On a lookup miss `GetInstanceStatus` returns the error "missing server". -/
theorem GetInstanceStatus_miss (b : Backend σ) {machineID : String} (h : machineID ≠ "")
    (w : World σ) {items : List Instance} {s1 : σ}
    (hl : b.ListInstances w.state ⟨some ("devpod-" ++ machineID)⟩ = (.ok items, s1))
    (hn : NoneTagged machineID items) :
    GetInstanceStatus b machineID w =
      .err (.plain "missing server")
        ⟨s1, w.trace ++ [.ListInstances ⟨some ("devpod-" ++ machineID)⟩]⟩ := by
  have hg := GetInstance_miss b h w hl hn
  simp only [GetInstanceStatus, run_bind, Go.bind, attempt, hg]
  rfl

end Lookup

/-! ## C2, C3: a lookup miss in `DeleteInstance` and `GetInstanceStatus` -/

/-- C2: deleting machine `m1` twice. The first call finds the instance and
terminates it; the second call, the instance being gone, lists no instance
tagged `m1` and returns the error "missing server" instead of success. -/
theorem DeleteInstance_second_call_fails :
    DeleteInstance simBackend "m1" (World.start oneInstanceCloud) =
      .ok () ⟨{ oneInstanceCloud with instances := [] },
        [.ListInstances ⟨some "devpod-m1"⟩,
         .TerminateInstance ⟨some "ocid1.instance.7", some false⟩]⟩ ∧
    DeleteInstance simBackend "m1" (World.start { oneInstanceCloud with instances := [] }) =
      .err (.plain "missing server") ⟨{ oneInstanceCloud with instances := [] },
        [.ListInstances ⟨some "devpod-m1"⟩]⟩ ∧
    IsNotFound (some (.plain "missing server")) = false := by
  decide

/-- C3: the status of machine `m1` on a backend that lists no instance is the
error "missing server", not the token "not_found". -/
theorem GetInstanceStatus_miss_is_error :
    GetInstanceStatus simBackend "m1" (World.start emptyCloud) =
      .err (.plain "missing server") ⟨emptyCloud, [.ListInstances ⟨some "devpod-m1"⟩]⟩ := by
  decide

/-! ## C4: the status tokens -/

/-- C4: when the lookup finds an instance, `GetInstanceStatus` returns no error
and one token: "running" for RUNNING, "stopped" for STOPPED, "terminated" for
TERMINATED, "starting" for PROVISIONING and for STARTING, "stopping" for
STOPPING, and the backend string itself for every other state. -/
theorem GetInstanceStatus_found {σ : Type} (b : Backend σ) (machineID : String)
    (w w1 : World σ) (inst : Instance) (h : GetInstance b machineID w = .ok inst w1) :
    ∃ token, GetInstanceStatus b machineID w = .ok token w1 ∧
      (inst.LifecycleState = "RUNNING" → token = "running") ∧
      (inst.LifecycleState = "STOPPED" → token = "stopped") ∧
      (inst.LifecycleState = "TERMINATED" → token = "terminated") ∧
      (inst.LifecycleState = "PROVISIONING" → token = "starting") ∧
      (inst.LifecycleState = "STARTING" → token = "starting") ∧
      (inst.LifecycleState = "STOPPING" → token = "stopping") ∧
      (inst.LifecycleState ∉
          ["RUNNING", "STOPPED", "TERMINATED", "PROVISIONING", "STARTING", "STOPPING"] →
        token = inst.LifecycleState) := by
  simp only [GetInstanceStatus, run_bind, Go.bind, attempt, h, InstanceLifecycleStateRunning,
    InstanceLifecycleStateStopped, InstanceLifecycleStateTerminated,
    InstanceLifecycleStateProvisioning, InstanceLifecycleStateStarting,
    InstanceLifecycleStateStopping, beq_iff_eq, Bool.or_eq_true]
  by_cases h1 : inst.LifecycleState = "RUNNING"
  · exact ⟨"running", by simp [h1], by simp [h1]⟩
  by_cases h2 : inst.LifecycleState = "STOPPED"
  · exact ⟨"stopped", by simp [h2], by simp [h2]⟩
  by_cases h3 : inst.LifecycleState = "TERMINATED"
  · exact ⟨"terminated", by simp [h3], by simp [h3]⟩
  by_cases h4 : inst.LifecycleState = "PROVISIONING"
  · exact ⟨"starting", by simp [h4], by simp [h4]⟩
  by_cases h5 : inst.LifecycleState = "STARTING"
  · exact ⟨"starting", by simp [h5], by simp [h5]⟩
  by_cases h6 : inst.LifecycleState = "STOPPING"
  · exact ⟨"stopping", by simp [h6], by simp [h6]⟩
  · exact ⟨inst.LifecycleState, by simp [h1, h2, h3, h4, h5, h6],
      by simp [h1, h2, h3, h4, h5, h6]⟩

/-- C4 on a backend whose instance of machine `m1` is running: the status call
returns a token subject to the table. -/
theorem GetInstanceStatus_found_witness :
    ∃ token, GetInstanceStatus simBackend "m1" (World.start oneInstanceCloud) =
        .ok token ⟨oneInstanceCloud, [.ListInstances ⟨some "devpod-m1"⟩]⟩ ∧
      (runningInstance.LifecycleState = "RUNNING" → token = "running") ∧
      (runningInstance.LifecycleState = "STOPPED" → token = "stopped") ∧
      (runningInstance.LifecycleState = "TERMINATED" → token = "terminated") ∧
      (runningInstance.LifecycleState = "PROVISIONING" → token = "starting") ∧
      (runningInstance.LifecycleState = "STARTING" → token = "starting") ∧
      (runningInstance.LifecycleState = "STOPPING" → token = "stopping") ∧
      (runningInstance.LifecycleState ∉
          ["RUNNING", "STOPPED", "TERMINATED", "PROVISIONING", "STARTING", "STOPPING"] →
        token = runningInstance.LifecycleState) :=
  GetInstanceStatus_found simBackend "m1" (World.start oneInstanceCloud)
    ⟨oneInstanceCloud, [.ListInstances ⟨some "devpod-m1"⟩]⟩ runningInstance (by decide)

/-! ## C5: start and stop on an instance already in the target state -/

/-- C5: when the lookup finds the instance in state RUNNING, `StartInstance`
returns success in the world the lookup left; when it finds it in state
STOPPED, `StopInstance` does; and the only call issued up to there is the
lookup's list call, so no instance action is issued. -/
theorem start_stop_noop {σ : Type} (b : Backend σ) (machineID : String)
    (w w1 : World σ) (inst : Instance) (h : GetInstance b machineID w = .ok inst w1) :
    (inst.LifecycleState = "RUNNING" → StartInstance b machineID w = .ok () w1) ∧
    (inst.LifecycleState = "STOPPED" → StopInstance b machineID w = .ok () w1) ∧
    w1.trace = w.trace ++ [.ListInstances ⟨some ("devpod-" ++ machineID)⟩] := by
  refine ⟨fun hs => ?_, fun hs => ?_, GetInstance_trace b h⟩
  · simp only [StartInstance, run_bind]
    rw [bind_ok h]
    simp [hs, InstanceLifecycleStateRunning]
  · simp only [StopInstance, run_bind]
    rw [bind_ok h]
    simp [hs, InstanceLifecycleStateStopped]

/-- C5 on a backend holding a running instance of `m1` and a stopped instance
of `m2`: starting `m1` and stopping `m2` both succeed after one list call. -/
theorem start_stop_noop_witness :
    StartInstance simBackend "m1" (World.start threeInstanceCloud) =
      .ok () ⟨threeInstanceCloud, [.ListInstances ⟨some "devpod-m1"⟩]⟩ ∧
    StopInstance simBackend "m2" (World.start threeInstanceCloud) =
      .ok () ⟨threeInstanceCloud, [.ListInstances ⟨some "devpod-m2"⟩]⟩ :=
  ⟨(start_stop_noop simBackend "m1" (World.start threeInstanceCloud)
      ⟨threeInstanceCloud, [.ListInstances ⟨some "devpod-m1"⟩]⟩ runningInstance
      (by decide)).1 rfl,
   (start_stop_noop simBackend "m2" (World.start threeInstanceCloud)
      ⟨threeInstanceCloud, [.ListInstances ⟨some "devpod-m2"⟩]⟩ stoppedInstance
      (by decide)).2.1 rfl⟩

/-! ## C10: the lookup -/

/-- C10: for the empty machine id `GetInstance` fails with the error "missing
machine id" and leaves the world as it was (no backend call). For a non-empty
machine id it issues one list call for the display name `devpod-<machineID>`;
when the listing succeeds it returns the first listed instance whose freeform
tag `machine-id` is the machine id, skipping instances whose tag is different
or missing, and fails with the error "missing server" when no listed instance
has that tag. -/
theorem GetInstance_lookup {σ : Type} (b : Backend σ) (machineID : String) (w : World σ) :
    (machineID = "" → GetInstance b machineID w = .err (.plain "missing machine id") w) ∧
    (machineID ≠ "" → ∀ (items : List Instance) (s1 : σ),
      b.ListInstances w.state ⟨some ("devpod-" ++ machineID)⟩ = (.ok items, s1) →
      (∀ inst, FirstTagged machineID items inst →
        GetInstance b machineID w =
          .ok inst ⟨s1, w.trace ++ [.ListInstances ⟨some ("devpod-" ++ machineID)⟩]⟩) ∧
      (NoneTagged machineID items →
        GetInstance b machineID w =
          .err (.plain "missing server")
            ⟨s1, w.trace ++ [.ListInstances ⟨some ("devpod-" ++ machineID)⟩]⟩)) := by
  refine ⟨fun h => ?_, fun h items s1 hl => ⟨fun inst hf => ?_, fun hn => ?_⟩⟩
  · subst h
    exact GetInstance_empty b w
  · rw [GetInstance_listed b h w hl, firstByMachineID_found h hf]
  · exact GetInstance_miss b h w hl hn

/-- C10 on a backend listing a stray instance ahead of the instance of `m1`:
the stray instance is skipped and the tagged one returned; and the empty
machine id fails before any call. -/
theorem GetInstance_lookup_witness :
    GetInstance simBackend "m1" (World.start threeInstanceCloud) =
      .ok runningInstance ⟨threeInstanceCloud, [.ListInstances ⟨some "devpod-m1"⟩]⟩ ∧
    GetInstance simBackend "" (World.start threeInstanceCloud) =
      .err (.plain "missing machine id") (World.start threeInstanceCloud) :=
  ⟨((GetInstance_lookup simBackend "m1" (World.start threeInstanceCloud)).2 (by decide)
      [strayInstance, runningInstance] threeInstanceCloud rfl).1 runningInstance
      ⟨[strayInstance], [], rfl, rfl, by decide⟩,
   (GetInstance_lookup simBackend "" (World.start threeInstanceCloud)).1 rfl⟩

/-! ## The lookup loop of `createOrGetNetwork` -/

section Network

variable {σ ρ : Type}

theorem firstByDisplayName_found {displayName : ρ → Option String} {name : String}
    {items : List ρ} {r : ρ} (h : FirstNamed displayName name items r) (w : World σ) :
    firstByDisplayName displayName name items w = .ok (some r) w := by
  obtain ⟨pre, post, rfl, hr, hpre⟩ := h
  induction pre with
  | nil =>
    simp only [List.nil_append, firstByDisplayName, run_bind, Go.bind, deref, hr]
    simp
  | cons x xs ih =>
    obtain ⟨n, hn, hne⟩ := hpre x (List.mem_cons_self _ _)
    simp only [List.cons_append, firstByDisplayName, run_bind, Go.bind, deref, hn]
    simp only [beq_iff_eq, hne, if_false]
    exact ih fun y hy => hpre y (List.mem_cons_of_mem _ hy)

theorem firstByDisplayName_none {displayName : ρ → Option String} {name : String}
    {items : List ρ} (h : NoneNamed displayName name items) (w : World σ) :
    firstByDisplayName displayName name items w = .ok none w := by
  induction items with
  | nil => rfl
  | cons x xs ih =>
    obtain ⟨n, hn, hne⟩ := h x (List.mem_cons_self _ _)
    simp only [firstByDisplayName, run_bind, Go.bind, deref, hn]
    simp only [beq_iff_eq, hne, if_false]
    exact ih fun y hy => h y (List.mem_cons_of_mem _ hy)

end Network

/-! ## C6: all four network resources present -/

/-- When each of the four listings has a first resource with the reserved
display name, the resources listed ahead of it carrying other display names,
`createOrGetNetwork` issues the four list calls only and returns the listed
VCN and subnet. -/
theorem createOrGetNetwork_found_all {σ : Type} (b : Backend σ)
    (compartmentID availabilityDomain machineID : String) (w : World σ)
    (vcns : List Vcn) (igs : List InternetGateway) (rts : List RouteTable)
    (subnets : List Subnet) (s1 s2 s3 s4 : σ)
    (vcn : Vcn) (ig : InternetGateway) (rt : RouteTable) (subnet : Subnet)
    (hv : b.ListVcns w.state ⟨some compartmentID⟩ = (.ok vcns, s1))
    (fv : FirstNamed Vcn.DisplayName "devpod-vcn" vcns vcn)
    (hg : b.ListInternetGateways s1 ⟨some compartmentID, vcn.Id⟩ = (.ok igs, s2))
    (fg : FirstNamed InternetGateway.DisplayName "devpod-ig" igs ig)
    (hr : b.ListRouteTables s2 ⟨some compartmentID, vcn.Id⟩ = (.ok rts, s3))
    (fr : FirstNamed RouteTable.DisplayName "devpod-rt" rts rt)
    (hs : b.ListSubnets s3 ⟨some compartmentID, vcn.Id⟩ = (.ok subnets, s4))
    (fs : FirstNamed Subnet.DisplayName "devpod-subnet" subnets subnet) :
    createOrGetNetwork b compartmentID availabilityDomain machineID w =
      .ok (vcn, subnet) ⟨s4, w.trace ++
        [.ListVcns ⟨some compartmentID⟩,
         .ListInternetGateways ⟨some compartmentID, vcn.Id⟩,
         .ListRouteTables ⟨some compartmentID, vcn.Id⟩,
         .ListSubnets ⟨some compartmentID, vcn.Id⟩]⟩ := by
  simp only [createOrGetNetwork, run_bind]
  rw [bind_ok (invoke_ok hv), run_bind, bind_ok (firstByDisplayName_found fv _), run_bind,
    bind_ok (run_pure _ _), run_bind,
    bind_ok (invoke_ok hg), run_bind, bind_ok (firstByDisplayName_found fg _), run_bind,
    bind_ok (run_pure _ _), run_bind,
    bind_ok (invoke_ok hr), run_bind, bind_ok (firstByDisplayName_found fr _), run_bind,
    bind_ok (run_pure _ _), run_bind,
    bind_ok (invoke_ok hs), run_bind, bind_ok (firstByDisplayName_found fs _), run_bind,
    bind_ok (run_pure _ _)]
  simp

/-- C6, as amended: when the four list calls succeed and each listing has a
first resource with the reserved display name (`devpod-vcn`, and scoped to its
id `devpod-ig`, `devpod-rt`, `devpod-subnet`), every resource listed ahead of
it carrying some other display name, `createOrGetNetwork` issues exactly these
four list calls, no create call, and returns that VCN and that subnet as
listed, whatever their other fields. -/
theorem createOrGetNetwork_all_present {σ : Type} (b : Backend σ)
    (compartmentID availabilityDomain machineID : String) (w : World σ)
    (vcns : List Vcn) (igs : List InternetGateway) (rts : List RouteTable)
    (subnets : List Subnet) (s1 s2 s3 s4 : σ)
    (vcn : Vcn) (ig : InternetGateway) (rt : RouteTable) (subnet : Subnet)
    (hv : b.ListVcns w.state ⟨some compartmentID⟩ = (.ok vcns, s1))
    (fv : FirstNamed Vcn.DisplayName "devpod-vcn" vcns vcn)
    (hg : b.ListInternetGateways s1 ⟨some compartmentID, vcn.Id⟩ = (.ok igs, s2))
    (fg : FirstNamed InternetGateway.DisplayName "devpod-ig" igs ig)
    (hr : b.ListRouteTables s2 ⟨some compartmentID, vcn.Id⟩ = (.ok rts, s3))
    (fr : FirstNamed RouteTable.DisplayName "devpod-rt" rts rt)
    (hs : b.ListSubnets s3 ⟨some compartmentID, vcn.Id⟩ = (.ok subnets, s4))
    (fs : FirstNamed Subnet.DisplayName "devpod-subnet" subnets subnet) :
    createOrGetNetwork b compartmentID availabilityDomain machineID w =
      .ok (vcn, subnet) ⟨s4, w.trace ++
        [.ListVcns ⟨some compartmentID⟩,
         .ListInternetGateways ⟨some compartmentID, vcn.Id⟩,
         .ListRouteTables ⟨some compartmentID, vcn.Id⟩,
         .ListSubnets ⟨some compartmentID, vcn.Id⟩]⟩ :=
  createOrGetNetwork_found_all b compartmentID availabilityDomain machineID w vcns igs rts subnets
    s1 s2 s3 s4 vcn ig rt subnet hv fv hg fg hr fr hs fs

/-- C6 on the reference backend holding the four reserved resources of
compartment `c1`: a run for another availability domain issues the four list
calls and returns the stored VCN and subnet. -/
theorem createOrGetNetwork_all_present_witness :
    createOrGetNetwork simBackend "c1" "AD-2" "m1" (World.start networkCloud) =
      .ok (reservedVcn, reservedSubnet) ⟨networkCloud, (World.start networkCloud).trace ++
        [.ListVcns ⟨some "c1"⟩,
         .ListInternetGateways ⟨some "c1", reservedVcn.Id⟩,
         .ListRouteTables ⟨some "c1", reservedVcn.Id⟩,
         .ListSubnets ⟨some "c1", reservedVcn.Id⟩]⟩ :=
  createOrGetNetwork_all_present simBackend "c1" "AD-2" "m1" (World.start networkCloud)
    [reservedVcn] [reservedIg] [reservedRt] [reservedSubnet]
    networkCloud networkCloud networkCloud networkCloud
    reservedVcn reservedIg reservedRt reservedSubnet
    rfl ⟨[], [], rfl, rfl, fun _ hx => nomatch hx⟩
    rfl ⟨[], [], rfl, rfl, fun _ hx => nomatch hx⟩
    rfl ⟨[], [], rfl, rfl, fun _ hx => nomatch hx⟩
    rfl ⟨[], [], rfl, rfl, fun _ hx => nomatch hx⟩

/-- C6 as stated fails: the backend holds `devpod-vcn` and, within it,
`devpod-ig`, `devpod-rt` and `devpod-subnet`, and every list call succeeds,
but a VCN without display name is listed ahead of `devpod-vcn`; the run
dereferences the absent name and panics after the first list call, returning
no subnet. -/
theorem createOrGetNetwork_unnamed_ahead_panics :
    (reservedVcn ∈ unnamedAheadCloud.vcns ∧ reservedIg ∈ unnamedAheadCloud.internetGateways ∧
      reservedRt ∈ unnamedAheadCloud.routeTables ∧ reservedSubnet ∈ unnamedAheadCloud.subnets) ∧
    (reservedVcn.DisplayName = some "devpod-vcn" ∧ reservedIg.DisplayName = some "devpod-ig" ∧
      reservedRt.DisplayName = some "devpod-rt" ∧
      reservedSubnet.DisplayName = some "devpod-subnet") ∧
    (reservedIg.VcnId = reservedVcn.Id ∧ reservedRt.VcnId = reservedVcn.Id ∧
      reservedSubnet.VcnId = reservedVcn.Id) ∧
    createOrGetNetwork simBackend "c1" "AD-1" "m1" (World.start unnamedAheadCloud) =
      .panic ⟨unnamedAheadCloud, [.ListVcns ⟨some "c1"⟩]⟩ := by
  decide

/-! ## C7: three runs in sequence -/

/-- When the four list calls succeed, every listed resource carries a display
name other than the reserved one, and the four create calls succeed,
`createOrGetNetwork` issues list and create calls in turn and returns the
created VCN and subnet. -/
theorem createOrGetNetwork_none_present {σ : Type} (b : Backend σ)
    (compartmentID availabilityDomain machineID : String) (w : World σ)
    (vcns : List Vcn) (igs : List InternetGateway) (rts : List RouteTable)
    (subnets : List Subnet) (s1 s2 s3 s4 s5 s6 s7 s8 : σ)
    (vcn : Vcn) (ig : InternetGateway) (rt : RouteTable) (subnet : Subnet)
    (hv : b.ListVcns w.state ⟨some compartmentID⟩ = (.ok vcns, s1))
    (nv : NoneNamed Vcn.DisplayName "devpod-vcn" vcns)
    (cv : b.CreateVcn s1 ⟨some compartmentID, some "devpod-vcn", some "10.0.0.0/16",
      some "devpodvcn", [("type", "devpod")]⟩ = (.ok vcn, s2))
    (hg : b.ListInternetGateways s2 ⟨some compartmentID, vcn.Id⟩ = (.ok igs, s3))
    (ng : NoneNamed InternetGateway.DisplayName "devpod-ig" igs)
    (cg : b.CreateInternetGateway s3 ⟨some compartmentID, some "devpod-ig", vcn.Id, some true,
      [("type", "devpod")]⟩ = (.ok ig, s4))
    (hr : b.ListRouteTables s4 ⟨some compartmentID, vcn.Id⟩ = (.ok rts, s5))
    (nr : NoneNamed RouteTable.DisplayName "devpod-rt" rts)
    (cr : b.CreateRouteTable s5 ⟨some compartmentID, some "devpod-rt", vcn.Id,
      [⟨ig.Id, some "0.0.0.0/0", "CIDR_BLOCK"⟩], [("type", "devpod")]⟩ = (.ok rt, s6))
    (hs : b.ListSubnets s6 ⟨some compartmentID, vcn.Id⟩ = (.ok subnets, s7))
    (ns : NoneNamed Subnet.DisplayName "devpod-subnet" subnets)
    (cs : b.CreateSubnet s7 ⟨some compartmentID, some "devpod-subnet", vcn.Id,
      some "10.0.0.0/24", rt.Id, some "devpodsubnet", some availabilityDomain,
      [("type", "devpod")]⟩ = (.ok subnet, s8)) :
    createOrGetNetwork b compartmentID availabilityDomain machineID w =
      .ok (vcn, subnet) ⟨s8, w.trace ++
        [.ListVcns ⟨some compartmentID⟩,
         .CreateVcn ⟨some compartmentID, some "devpod-vcn", some "10.0.0.0/16",
           some "devpodvcn", [("type", "devpod")]⟩,
         .ListInternetGateways ⟨some compartmentID, vcn.Id⟩,
         .CreateInternetGateway ⟨some compartmentID, some "devpod-ig", vcn.Id, some true,
           [("type", "devpod")]⟩,
         .ListRouteTables ⟨some compartmentID, vcn.Id⟩,
         .CreateRouteTable ⟨some compartmentID, some "devpod-rt", vcn.Id,
           [⟨ig.Id, some "0.0.0.0/0", "CIDR_BLOCK"⟩], [("type", "devpod")]⟩,
         .ListSubnets ⟨some compartmentID, vcn.Id⟩,
         .CreateSubnet ⟨some compartmentID, some "devpod-subnet", vcn.Id,
           some "10.0.0.0/24", rt.Id, some "devpodsubnet", some availabilityDomain,
           [("type", "devpod")]⟩]⟩ := by
  simp only [createOrGetNetwork, run_bind]
  rw [bind_ok (invoke_ok hv), run_bind, bind_ok (firstByDisplayName_none nv _), run_bind,
    bind_ok (invoke_ok cv), run_bind,
    bind_ok (invoke_ok hg), run_bind, bind_ok (firstByDisplayName_none ng _), run_bind,
    bind_ok (invoke_ok cg), run_bind,
    bind_ok (invoke_ok hr), run_bind, bind_ok (firstByDisplayName_none nr _), run_bind,
    bind_ok (invoke_ok cr), run_bind,
    bind_ok (invoke_ok hs), run_bind, bind_ok (firstByDisplayName_none ns _), run_bind,
    bind_ok (invoke_ok cs)]
  simp [labelType, labelTypeDevPod, RouteRuleDestinationTypeCidrBlock]

/-- C7, as amended: on the reference backend, starting from a compartment in
which every network resource carries a display name and none carries a
reserved one, a first run of `createOrGetNetwork` issues exactly one create
call for each of VCN, internet gateway, route table and subnet and stores
exactly these four resources; every later run, whatever its availability
domain and machine id, issues the four list calls only, leaves the backend as
it is, and returns the same VCN and subnet as the first run. So two runs in
sequence create one resource of each kind, and a third creates nothing. -/
theorem createOrGetNetwork_thrice (s0 : CloudState) (c ad m : String) (t0 : List Call)
    (h : s0.Unreserved c) :
    ∃ (vcn : Vcn) (ig : InternetGateway) (rt : RouteTable) (subnet : Subnet)
      (s1 : CloudState) (t1 : List Call),
      createOrGetNetwork simBackend c ad m ⟨s0, t0⟩ = .ok (vcn, subnet) ⟨s1, t0 ++ t1⟩ ∧
      t1.map Call.name =
        ["ListVcns", "CreateVcn", "ListInternetGateways", "CreateInternetGateway",
         "ListRouteTables", "CreateRouteTable", "ListSubnets", "CreateSubnet"] ∧
      (s1.vcns = s0.vcns ++ [vcn] ∧ s1.internetGateways = s0.internetGateways ++ [ig] ∧
        s1.routeTables = s0.routeTables ++ [rt] ∧ s1.subnets = s0.subnets ++ [subnet]) ∧
      ∀ (t : List Call) (ad2 m2 : String), ∃ t2,
        createOrGetNetwork simBackend c ad2 m2 ⟨s1, t⟩ = .ok (vcn, subnet) ⟨s1, t ++ t2⟩ ∧
        t2.map Call.name =
          ["ListVcns", "ListInternetGateways", "ListRouteTables", "ListSubnets"] := by
  obtain ⟨hv, hg, hr, hn⟩ := h
  have nv : NoneNamed Vcn.DisplayName "devpod-vcn"
      (s0.vcns.filter fun v => v.CompartmentId == some c) := fun x hx =>
    hv x (List.mem_filter.1 hx).1 (by simpa using (List.mem_filter.1 hx).2)
  have ng : ∀ id, NoneNamed InternetGateway.DisplayName "devpod-ig"
      (s0.internetGateways.filter fun g => g.CompartmentId == some c && g.VcnId == id) :=
    fun id x hx =>
      hg x (List.mem_filter.1 hx).1 (by
        have := (List.mem_filter.1 hx).2
        simp only [Bool.and_eq_true, beq_iff_eq] at this
        exact this.1)
  have nr : ∀ id, NoneNamed RouteTable.DisplayName "devpod-rt"
      (s0.routeTables.filter fun r => r.CompartmentId == some c && r.VcnId == id) :=
    fun id x hx =>
      hr x (List.mem_filter.1 hx).1 (by
        have := (List.mem_filter.1 hx).2
        simp only [Bool.and_eq_true, beq_iff_eq] at this
        exact this.1)
  have ns : ∀ id, NoneNamed Subnet.DisplayName "devpod-subnet"
      (s0.subnets.filter fun n => n.CompartmentId == some c && n.VcnId == id) :=
    fun id x hx =>
      hn x (List.mem_filter.1 hx).1 (by
        have := (List.mem_filter.1 hx).2
        simp only [Bool.and_eq_true, beq_iff_eq] at this
        exact this.1)
  let vcn : Vcn := ⟨s0.freshId "vcn", some "devpod-vcn", some c, some "10.0.0.0/16"⟩
  let sA : CloudState := { s0 with vcns := s0.vcns ++ [vcn], serial := s0.serial + 1 }
  let ig : InternetGateway :=
    ⟨sA.freshId "internetgateway", some "devpod-ig", some c, vcn.Id, some true⟩
  let sB : CloudState :=
    { sA with internetGateways := sA.internetGateways ++ [ig], serial := sA.serial + 1 }
  let rt : RouteTable :=
    ⟨sB.freshId "routetable", some "devpod-rt", some c, vcn.Id,
      [⟨ig.Id, some "0.0.0.0/0", "CIDR_BLOCK"⟩]⟩
  let sC : CloudState := { sB with routeTables := sB.routeTables ++ [rt], serial := sB.serial + 1 }
  let subnet : Subnet :=
    ⟨sC.freshId "subnet", some "devpod-subnet", some c, vcn.Id, some "10.0.0.0/24", rt.Id,
      some ad⟩
  let sD : CloudState := { sC with subnets := sC.subnets ++ [subnet], serial := sC.serial + 1 }
  have first := createOrGetNetwork_none_present simBackend c ad m ⟨s0, t0⟩
    (s0.vcns.filter fun v => v.CompartmentId == some c)
    (s0.internetGateways.filter fun g => g.CompartmentId == some c && g.VcnId == vcn.Id)
    (s0.routeTables.filter fun r => r.CompartmentId == some c && r.VcnId == vcn.Id)
    (s0.subnets.filter fun n => n.CompartmentId == some c && n.VcnId == vcn.Id)
    s0 sA sA sB sB sC sC sD vcn ig rt subnet
    rfl nv rfl rfl (ng _) rfl rfl (nr _) rfl rfl (ns _) rfl
  refine ⟨vcn, ig, rt, subnet, sD, _, first, rfl, ⟨rfl, rfl, rfl, rfl⟩, fun t ad2 m2 => ?_⟩
  have later := createOrGetNetwork_found_all simBackend c ad2 m2 ⟨sD, t⟩
    (sD.vcns.filter fun v => v.CompartmentId == some c)
    (sD.internetGateways.filter fun g => g.CompartmentId == some c && g.VcnId == vcn.Id)
    (sD.routeTables.filter fun r => r.CompartmentId == some c && r.VcnId == vcn.Id)
    (sD.subnets.filter fun n => n.CompartmentId == some c && n.VcnId == vcn.Id)
    sD sD sD sD vcn ig rt subnet
    rfl ⟨_, [], by simp [sD, sC, sB, sA, vcn, List.filter_append, List.filter_cons], rfl, nv⟩
    rfl ⟨_, [], by simp [sD, sC, sB, sA, ig, vcn, List.filter_append, List.filter_cons], rfl,
      ng vcn.Id⟩
    rfl ⟨_, [], by simp [sD, sC, sB, sA, rt, vcn, List.filter_append, List.filter_cons], rfl,
      nr vcn.Id⟩
    rfl ⟨_, [], by simp [sD, sC, sB, sA, subnet, vcn, List.filter_append, List.filter_cons], rfl,
      ns vcn.Id⟩
  exact ⟨_, later, rfl⟩

/-- C7 on the empty reference backend: the first run creates the four
resources, later runs list them and return the same VCN and subnet. -/
theorem createOrGetNetwork_thrice_witness :
    ∃ (vcn : Vcn) (ig : InternetGateway) (rt : RouteTable) (subnet : Subnet)
      (s1 : CloudState) (t1 : List Call),
      createOrGetNetwork simBackend "c1" "AD-1" "m1" ⟨emptyCloud, []⟩ =
        .ok (vcn, subnet) ⟨s1, [] ++ t1⟩ ∧
      t1.map Call.name =
        ["ListVcns", "CreateVcn", "ListInternetGateways", "CreateInternetGateway",
         "ListRouteTables", "CreateRouteTable", "ListSubnets", "CreateSubnet"] ∧
      (s1.vcns = emptyCloud.vcns ++ [vcn] ∧
        s1.internetGateways = emptyCloud.internetGateways ++ [ig] ∧
        s1.routeTables = emptyCloud.routeTables ++ [rt] ∧
        s1.subnets = emptyCloud.subnets ++ [subnet]) ∧
      ∀ (t : List Call) (ad2 m2 : String), ∃ t2,
        createOrGetNetwork simBackend "c1" ad2 m2 ⟨s1, t⟩ = .ok (vcn, subnet) ⟨s1, t ++ t2⟩ ∧
        t2.map Call.name =
          ["ListVcns", "ListInternetGateways", "ListRouteTables", "ListSubnets"] :=
  createOrGetNetwork_thrice emptyCloud "c1" "AD-1" "m1" []
    ⟨fun _ hx => absurd hx (List.not_mem_nil _), fun _ hx => absurd hx (List.not_mem_nil _),
     fun _ hx => absurd hx (List.not_mem_nil _), fun _ hx => absurd hx (List.not_mem_nil _)⟩

/-- C7 as stated fails: compartment `c1` of the reference backend holds none
of the reserved network resources, but holds a VCN without display name; the
first run panics after its first list call and creates nothing. -/
theorem createOrGetNetwork_unnamed_only_panics :
    (∀ v ∈ unnamedOnlyCloud.vcns, v.DisplayName ≠ some "devpod-vcn") ∧
    unnamedOnlyCloud.internetGateways = [] ∧ unnamedOnlyCloud.routeTables = [] ∧
    unnamedOnlyCloud.subnets = [] ∧
    createOrGetNetwork simBackend "c1" "AD-1" "m1" (World.start unnamedOnlyCloud) =
      .panic ⟨unnamedOnlyCloud, [.ListVcns ⟨some "c1"⟩]⟩ := by
  decide

/-! ## C8: the launch request -/

theorem upsertPublicKey_world {σ : Type} (env : Env) (publicKey machineID : String)
    (w : World σ) : (upsertPublicKey env publicKey machineID w).world = w := by
  unfold upsertPublicKey
  rcases hg : generateSSHKeyFingerprint env publicKey with ⟨fp, _ | err⟩
  · cases hc : generateCloudConfig env publicKey <;> rfl
  · rfl

/-- C8: whenever `BuildInstanceOptions` succeeds, the request carries the
freeform tags `machine-id = machineID` and `type = devpod` and no other, the
display name `devpod-` followed by the whole machine id, the availability
domain, compartment and shape passed in, and network interface details with
public-IP assignment enabled and the id of the subnet that
`createOrGetNetwork`, run after `findImage`, returned. -/
theorem BuildInstanceOptions_request {σ : Type} (env : Env) (b : Backend σ)
    (machineID diskImage diskSizeGB machineType region availabilityDomain compartmentID
      publicKey : String) (w w1 : World σ) (req : LaunchInstanceRequest)
    (h : BuildInstanceOptions env b machineID diskImage diskSizeGB machineType region
      availabilityDomain compartmentID publicKey w = .ok req w1) :
    req.FreeformTags = [("machine-id", machineID), ("type", "devpod")] ∧
    req.DisplayName = some ("devpod-" ++ machineID) ∧
    req.AvailabilityDomain = some availabilityDomain ∧
    req.CompartmentId = some compartmentID ∧
    req.Shape = some machineType ∧
    ∃ (image : Image) (w0 : World σ) (vcn : Vcn) (subnet : Subnet),
      findImage b compartmentID diskImage w = .ok image w0 ∧
      createOrGetNetwork b compartmentID availabilityDomain machineID w0 =
        .ok (vcn, subnet) w1 ∧
      req.CreateVnicDetails = some ⟨subnet.Id, some true⟩ := by
  simp only [BuildInstanceOptions, run_bind] at h
  have hw := upsertPublicKey_world (σ := σ) env publicKey machineID w
  cases hu : upsertPublicKey env publicKey machineID w with
  | err e wu => rw [bind_err hu] at h; cases h
  | panic wu => rw [bind_panic hu] at h; cases h
  | ok sd wu =>
    rw [hu] at hw
    change wu = w at hw
    subst hw
    rw [bind_ok hu, run_bind] at h
    cases hf : findImage b compartmentID diskImage wu with
    | err e w0 => simp [Go.bind, wrapErr, hf] at h
    | panic w0 => simp [Go.bind, wrapErr, hf] at h
    | ok image w0 =>
      have hf2 : wrapErr (findImage b compartmentID diskImage) "failed to find image" wu =
          .ok image w0 := by simp [wrapErr, hf]
      rw [bind_ok hf2, run_bind] at h
      cases hn : createOrGetNetwork b compartmentID availabilityDomain machineID w0 with
      | err e w2 => simp [Go.bind, wrapErr, hn] at h
      | panic w2 => simp [Go.bind, wrapErr, hn] at h
      | ok pair w2 =>
        obtain ⟨vcn, subnet⟩ := pair
        have hn2 : wrapErr (createOrGetNetwork b compartmentID availabilityDomain machineID)
            "failed to create or get network" w0 = .ok (vcn, subnet) w2 := by
          simp [wrapErr, hn]
        rw [bind_ok hn2] at h
        cases ha : strconv.Atoi diskSizeGB with
        | error e => simp [ha, returnErr] at h
        | ok n =>
          simp only [ha, run_pure, Res.ok.injEq] at h
          obtain ⟨hreq, hw1⟩ := h
          subst hw1
          subst hreq
          exact ⟨rfl, rfl, rfl, rfl, rfl, image, w0, vcn, subnet, rfl, hn, rfl⟩

/-- C8 for a machine id of 29 characters on the reference backend holding the
image and the network: the build succeeds with `sampleRequest`, whose tags and
display name carry the whole machine id. -/
theorem BuildInstanceOptions_request_witness :
    sampleRequest.FreeformTags =
      [("machine-id", "devtest-0123456789-0123456789"), ("type", "devpod")] ∧
    sampleRequest.DisplayName = some ("devpod-" ++ "devtest-0123456789-0123456789") ∧
    sampleRequest.AvailabilityDomain = some "AD-1" ∧
    sampleRequest.CompartmentId = some "c1" ∧
    sampleRequest.Shape = some "VM.Standard.E4.Flex" ∧
    ∃ (image : Image) (w0 : World CloudState) (vcn : Vcn) (subnet : Subnet),
      findImage simBackend "c1" "Ubuntu-22.04" (World.start readyCloud) = .ok image w0 ∧
      createOrGetNetwork simBackend "c1" "AD-1" "devtest-0123456789-0123456789" w0 =
        .ok (vcn, subnet) ⟨readyCloud,
          [.ListImages ⟨some "c1", some "Ubuntu-22.04"⟩,
           .ListVcns ⟨some "c1"⟩,
           .ListInternetGateways ⟨some "c1", some "ocid1.vcn.0"⟩,
           .ListRouteTables ⟨some "c1", some "ocid1.vcn.0"⟩,
           .ListSubnets ⟨some "c1", some "ocid1.vcn.0"⟩]⟩ ∧
      sampleRequest.CreateVnicDetails = some ⟨subnet.Id, some true⟩ :=
  BuildInstanceOptions_request sampleEnv simBackend "devtest-0123456789-0123456789"
    "Ubuntu-22.04" "50" "VM.Standard.E4.Flex" "us-ashburn-1" "AD-1" "c1" "ssh-rsa AAAA"
    (World.start readyCloud) _ sampleRequest (by decide)

/-! ## C9: the calls issued by `BuildInstanceOptions` -/

section Calls

variable {σ α β : Type} {P : Call → Prop}

theorem Issues.of_world {m : Go σ α} (h : ∀ w, (m w).world = w) : Issues P m := fun w =>
  ⟨[], by rw [h w, List.append_nil], fun _ hc => absurd hc (List.not_mem_nil _)⟩

theorem Issues.pure (a : α) : Issues P (pure a : Go σ α) := Issues.of_world fun _ => rfl

theorem Issues.returnErr (e : GoError) : Issues P (returnErr e : Go σ α) :=
  Issues.of_world fun _ => rfl

theorem Issues.deref (p : Option α) : Issues P (deref p : Go σ α) :=
  Issues.of_world fun w => by cases p <;> rfl

theorem Issues.invoke (op : σ → Except GoError α × σ) {c : Call} (h : P c) :
    Issues P (invoke op c) := fun w => by
  refine ⟨[c], ?_, fun x hx => by rw [List.mem_singleton.1 hx]; exact h⟩
  unfold Oracle.invoke
  rcases op w.state with ⟨_ | _, _⟩ <;> rfl

theorem Issues.bind {m : Go σ α} {f : α → Go σ β} (hm : Issues P m)
    (hf : ∀ a, Issues P (f a)) : Issues P (m >>= f) := fun w => by
  obtain ⟨cs1, h1, p1⟩ := hm w
  rw [run_bind]
  cases hr : m w with
  | ok a w1 =>
    rw [hr] at h1
    obtain ⟨cs2, h2, p2⟩ := hf a w1
    refine ⟨cs1 ++ cs2, ?_, fun c hc => (List.mem_append.1 hc).elim (p1 c) (p2 c)⟩
    rw [bind_ok hr, h2]
    change w1.trace = _ at h1
    rw [h1, List.append_assoc]
  | err e w1 =>
    rw [hr] at h1
    exact ⟨cs1, by rw [bind_err hr]; exact h1, p1⟩
  | panic w1 =>
    rw [hr] at h1
    exact ⟨cs1, by rw [bind_panic hr]; exact h1, p1⟩

theorem Issues.wrapErr {m : Go σ α} (msg : String) (hm : Issues P m) :
    Issues P (wrapErr m msg) := fun w => by
  obtain ⟨cs, h, p⟩ := hm w
  refine ⟨cs, ?_, p⟩
  unfold Oracle.wrapErr
  cases hr : m w <;> rw [hr] at h <;> exact h

theorem Issues.firstByDisplayName {ρ : Type} (displayName : ρ → Option String) (name : String)
    (items : List ρ) : Issues P (firstByDisplayName displayName name items : Go σ (Option ρ)) := by
  induction items with
  | nil => exact Issues.pure _
  | cons v rest ih =>
    unfold Oracle.firstByDisplayName
    refine Issues.bind (Issues.deref _) fun n => ?_
    split
    · exact Issues.pure _
    · exact ih

theorem Issues.upsertPublicKey (env : Env) (publicKey machineID : String) :
    Issues P (upsertPublicKey env publicKey machineID : Go σ InstanceSourceViaImageDetails) :=
  Issues.of_world (upsertPublicKey_world env publicKey machineID)

theorem Issues.findImage (b : Backend σ) (compartmentID diskImage : String)
    (h : ∀ req, P (.ListImages req)) : Issues P (findImage b compartmentID diskImage) := by
  unfold Oracle.findImage
  refine Issues.bind (Issues.invoke _ (h _)) fun response => ?_
  cases response
  · exact Issues.returnErr _
  · exact Issues.pure _

theorem Issues.createOrGetNetwork (b : Backend σ)
    (compartmentID availabilityDomain machineID : String)
    (h : ∀ c : Call, c.name ∈ ["ListVcns", "CreateVcn", "ListInternetGateways",
      "CreateInternetGateway", "ListRouteTables", "CreateRouteTable", "ListSubnets",
      "CreateSubnet"] → P c) :
    Issues P (createOrGetNetwork b compartmentID availabilityDomain machineID) := by
  unfold Oracle.createOrGetNetwork
  refine Issues.bind (Issues.invoke _ (h _ (by simp [Call.name]))) fun _ => ?_
  refine Issues.bind (Issues.firstByDisplayName _ _ _) fun vcnFound => ?_
  refine Issues.bind ?_ fun vcn => ?_
  · cases vcnFound
    · exact Issues.invoke _ (h _ (by simp [Call.name]))
    · exact Issues.pure _
  refine Issues.bind (Issues.invoke _ (h _ (by simp [Call.name]))) fun _ => ?_
  refine Issues.bind (Issues.firstByDisplayName _ _ _) fun igFound => ?_
  refine Issues.bind ?_ fun ig => ?_
  · cases igFound
    · exact Issues.invoke _ (h _ (by simp [Call.name]))
    · exact Issues.pure _
  refine Issues.bind (Issues.invoke _ (h _ (by simp [Call.name]))) fun _ => ?_
  refine Issues.bind (Issues.firstByDisplayName _ _ _) fun rtFound => ?_
  refine Issues.bind ?_ fun rt => ?_
  · cases rtFound
    · exact Issues.invoke _ (h _ (by simp [Call.name]))
    · exact Issues.pure _
  refine Issues.bind (Issues.invoke _ (h _ (by simp [Call.name]))) fun _ => ?_
  refine Issues.bind (Issues.firstByDisplayName _ _ _) fun subnetFound => ?_
  refine Issues.bind ?_ fun subnet => Issues.pure _
  cases subnetFound
  · exact Issues.invoke _ (h _ (by simp [Call.name]))
  · exact Issues.pure _

end Calls

theorem buildCallNames_safe (n : String) (h : n ∈ buildCallNames) :
    n ∉ ["LaunchInstance", "TerminateInstance", "InstanceAction"] := by
  intro hbad
  rcases List.mem_cons.1 hbad with rfl | hbad
  · exact absurd h (by decide)
  rcases List.mem_cons.1 hbad with rfl | hbad
  · exact absurd h (by decide)
  rcases List.mem_cons.1 hbad with rfl | hbad
  · exact absurd h (by decide)
  · exact absurd hbad (List.not_mem_nil _)

/-- C9, as amended: whatever the arguments and the backend, and however the
call ends, every call `BuildInstanceOptions` issues goes to one of the list
methods or to one of the create methods of the four network resources of
`createOrGetNetwork`; it issues no launch, terminate or instance-action
call. -/
theorem BuildInstanceOptions_calls {σ : Type} (env : Env) (b : Backend σ)
    (machineID diskImage diskSizeGB machineType region availabilityDomain compartmentID
      publicKey : String) (w : World σ) :
    ∃ cs : List Call,
      (BuildInstanceOptions env b machineID diskImage diskSizeGB machineType region
        availabilityDomain compartmentID publicKey w).world.trace = w.trace ++ cs ∧
      ∀ c ∈ cs, c.name ∈ buildCallNames ∧
        c.name ∉ ["LaunchInstance", "TerminateInstance", "InstanceAction"] := by
  have key : Issues (fun c : Call => c.name ∈ buildCallNames)
      (BuildInstanceOptions env b machineID diskImage diskSizeGB machineType region
        availabilityDomain compartmentID publicKey) := by
    unfold BuildInstanceOptions
    refine Issues.bind (Issues.upsertPublicKey _ _ _) fun _ => ?_
    refine Issues.bind
      (Issues.wrapErr _ (Issues.findImage _ _ _ fun _ => by simp [Call.name, buildCallNames]))
      fun _ => ?_
    refine Issues.bind (Issues.wrapErr _ (Issues.createOrGetNetwork _ _ _ _ fun c hc => ?_))
      fun pair => ?_
    · simp only [buildCallNames, List.mem_cons] at hc ⊢
      tauto
    · obtain ⟨_, _⟩ := pair
      dsimp only
      cases strconv.Atoi diskSizeGB
      · exact Issues.returnErr _
      · exact Issues.pure _
  obtain ⟨cs, h1, h2⟩ := key w
  exact ⟨cs, h1, fun c hc => ⟨h2 c hc, buildCallNames_safe _ (h2 c hc)⟩⟩

/-- C9 as stated fails: on a backend holding the image and no network
resource, a successful build and a build failing on its disk size both issue
the four network create calls, after which the backend holds a VCN, an
internet gateway, a route table and a subnet that it did not hold before. -/
theorem BuildInstanceOptions_creates_network :
    (imageOnlyCloud.vcns = [] ∧ imageOnlyCloud.internetGateways = [] ∧
      imageOnlyCloud.routeTables = [] ∧ imageOnlyCloud.subnets = []) ∧
    (freshBuild.isOk = true ∧
      freshBuild.world.trace.map Call.name =
        ["ListImages", "ListVcns", "CreateVcn", "ListInternetGateways",
         "CreateInternetGateway", "ListRouteTables", "CreateRouteTable", "ListSubnets",
         "CreateSubnet"] ∧
      freshBuild.world.state.vcns.map Vcn.DisplayName = [some "devpod-vcn"] ∧
      freshBuild.world.state.subnets.map Subnet.DisplayName = [some "devpod-subnet"]) ∧
    (failedBuild.isErr = true ∧
      failedBuild.world.trace.map Call.name =
        ["ListImages", "ListVcns", "CreateVcn", "ListInternetGateways",
         "CreateInternetGateway", "ListRouteTables", "CreateRouteTable", "ListSubnets",
         "CreateSubnet"] ∧
      failedBuild.world.state.vcns.map Vcn.DisplayName = [some "devpod-vcn"] ∧
      failedBuild.world.state.internetGateways.map InternetGateway.DisplayName =
        [some "devpod-ig"] ∧
      failedBuild.world.state.routeTables.map RouteTable.DisplayName = [some "devpod-rt"] ∧
      failedBuild.world.state.subnets.map Subnet.DisplayName = [some "devpod-subnet"]) := by
  decide

/-! ## C19: service errors with another status -/

/-- C19: an error that is or wraps a service error whose HTTP status code is
not 404 is not classified as not found, whatever its message; the substrings
are looked for only in errors that carry no service error. -/
theorem IsNotFound_service_other_status (e : GoError) (status : Int)
    (h : asServiceError e = some status) (hs : status ≠ 404) :
    IsNotFound (some e) = false := by
  simp [IsNotFound, h, hs]

/-- C19 at a wrapped service error with status 500 whose messages contain all
three substrings. -/
theorem IsNotFound_service_other_status_witness :
    ("not found".data <:+:
        (GoError.wrap "resource not found"
          (.service 500 "NotFound: bucket does not exist")).Error.data) ∧
    IsNotFound (some (.wrap "resource not found"
      (.service 500 "NotFound: bucket does not exist"))) = false :=
  ⟨(strings.Contains_iff _ _).1 (by decide),
   IsNotFound_service_other_status
     (.wrap "resource not found" (.service 500 "NotFound: bucket does not exist")) 500 rfl
     (by decide)⟩

/-! ## C18: the disk size and the launch request -/

/-- C18: for two disk sizes that both parse as integers, all other arguments,
the backend and the world it starts from being the same, the two runs of
`BuildInstanceOptions` end alike: same request (or same failure), same calls,
same backend state. -/
theorem BuildInstanceOptions_disk_size_irrelevant {σ : Type} (env : Env) (b : Backend σ)
    (machineID diskImage size1 size2 machineType region availabilityDomain compartmentID
      publicKey : String) (w : World σ) (n1 n2 : Int)
    (h1 : strconv.Atoi size1 = .ok n1) (h2 : strconv.Atoi size2 = .ok n2) :
    BuildInstanceOptions env b machineID diskImage size1 machineType region
        availabilityDomain compartmentID publicKey w =
      BuildInstanceOptions env b machineID diskImage size2 machineType region
        availabilityDomain compartmentID publicKey w := by
  simp only [BuildInstanceOptions, h1, h2]

/-- C18 for the sizes `50` and `-7` on the reference backend: both builds
return `sampleRequest`. -/
theorem BuildInstanceOptions_disk_size_irrelevant_witness :
    BuildInstanceOptions sampleEnv simBackend "devtest-0123456789-0123456789" "Ubuntu-22.04"
        "50" "VM.Standard.E4.Flex" "us-ashburn-1" "AD-1" "c1" "ssh-rsa AAAA"
        (World.start readyCloud) =
      BuildInstanceOptions sampleEnv simBackend "devtest-0123456789-0123456789" "Ubuntu-22.04"
        "-7" "VM.Standard.E4.Flex" "us-ashburn-1" "AD-1" "c1" "ssh-rsa AAAA"
        (World.start readyCloud) :=
  BuildInstanceOptions_disk_size_irrelevant sampleEnv simBackend
    "devtest-0123456789-0123456789" "Ubuntu-22.04" "50" "-7" "VM.Standard.E4.Flex"
    "us-ashburn-1" "AD-1" "c1" "ssh-rsa AAAA" (World.start readyCloud) 50 (-7) rfl rfl

/-! ## C12: terminating a found instance -/

/-- C12: when the lookup finds the instance, `DeleteInstance` issues, after
the lookup's list call, one terminate call for the id of that instance with
boot-volume preservation `false`, and nothing else. It returns success when
the terminate call succeeds and when it fails with an error that `IsNotFound`
classifies as not found, and returns the terminate error itself otherwise. -/
theorem DeleteInstance_found {σ : Type} (b : Backend σ) (machineID : String)
    (w w1 : World σ) (inst : Instance) (h : GetInstance b machineID w = .ok inst w1) :
    (∀ s2, b.TerminateInstance w1.state ⟨inst.Id, some false⟩ = (.ok (), s2) →
      DeleteInstance b machineID w =
        .ok () ⟨s2, w1.trace ++ [.TerminateInstance ⟨inst.Id, some false⟩]⟩) ∧
    (∀ e s2, b.TerminateInstance w1.state ⟨inst.Id, some false⟩ = (.error e, s2) →
      IsNotFound (some e) = true →
      DeleteInstance b machineID w =
        .ok () ⟨s2, w1.trace ++ [.TerminateInstance ⟨inst.Id, some false⟩]⟩) ∧
    (∀ e s2, b.TerminateInstance w1.state ⟨inst.Id, some false⟩ = (.error e, s2) →
      IsNotFound (some e) = false →
      DeleteInstance b machineID w =
        .err e ⟨s2, w1.trace ++ [.TerminateInstance ⟨inst.Id, some false⟩]⟩) ∧
    w1.trace = w.trace ++ [.ListInstances ⟨some ("devpod-" ++ machineID)⟩] := by
  refine ⟨fun s2 ht => ?_, fun e s2 ht hn => ?_, fun e s2 ht hn => ?_, GetInstance_trace b h⟩
  · simp only [DeleteInstance, run_bind, Go.bind, attempt, h, invoke, ht]
    rfl
  · simp only [DeleteInstance, run_bind, Go.bind, attempt, h, invoke, ht, hn]
    rfl
  · simp only [DeleteInstance, run_bind, Go.bind, attempt, h, invoke, ht, hn]
    rfl

/-- C12 on three backends holding the running instance of `m1`: the terminate
call succeeds, answers 404, or answers 500 with a message containing
"not found". -/
theorem DeleteInstance_found_witness :
    DeleteInstance simBackend "m1" (World.start oneInstanceCloud) =
      .ok () ⟨{ oneInstanceCloud with instances := [] },
        [.ListInstances ⟨some "devpod-m1"⟩] ++
          [.TerminateInstance ⟨runningInstance.Id, some false⟩]⟩ ∧
    DeleteInstance goneBackend "m1" (World.start oneInstanceCloud) =
      .ok () ⟨oneInstanceCloud,
        [.ListInstances ⟨some "devpod-m1"⟩] ++
          [.TerminateInstance ⟨runningInstance.Id, some false⟩]⟩ ∧
    DeleteInstance brokenBackend "m1" (World.start oneInstanceCloud) =
      .err (.service 500 "InternalError: not found") ⟨oneInstanceCloud,
        [.ListInstances ⟨some "devpod-m1"⟩] ++
          [.TerminateInstance ⟨runningInstance.Id, some false⟩]⟩ :=
  ⟨(DeleteInstance_found simBackend "m1" (World.start oneInstanceCloud)
      ⟨oneInstanceCloud, [.ListInstances ⟨some "devpod-m1"⟩]⟩ runningInstance
      (by decide)).1 _ rfl,
   (DeleteInstance_found goneBackend "m1" (World.start oneInstanceCloud)
      ⟨oneInstanceCloud, [.ListInstances ⟨some "devpod-m1"⟩]⟩ runningInstance
      (by decide)).2.1 _ _ rfl (by decide),
   (DeleteInstance_found brokenBackend "m1" (World.start oneInstanceCloud)
      ⟨oneInstanceCloud, [.ListInstances ⟨some "devpod-m1"⟩]⟩ runningInstance
      (by decide)).2.2.1 _ _ rfl (by decide)⟩

/-! ## C16: the image lookup -/

theorem findImage_listed {σ : Type} (b : Backend σ) (compartmentID diskImage : String)
    (w : World σ) {items : List Image} {s1 : σ}
    (hl : b.ListImages w.state ⟨some compartmentID, some diskImage⟩ = (.ok items, s1)) :
    findImage b compartmentID diskImage w =
      match items with
      | [] =>
        .err (.plain ("image " ++ diskImage ++ " not found"))
          ⟨s1, w.trace ++ [.ListImages ⟨some compartmentID, some diskImage⟩]⟩
      | first :: _ =>
        .ok first ⟨s1, w.trace ++ [.ListImages ⟨some compartmentID, some diskImage⟩]⟩ := by
  simp only [findImage, run_bind]
  rw [bind_ok (invoke_ok hl)]
  cases items <;> rfl

/-- C16, as amended: `findImage` issues one list call carrying the compartment
and `diskImage` as display-name filter; when the listing is empty it fails
with the error "image <diskImage> not found"; otherwise it returns the first
listed image as it is, so the returned image has the display name `diskImage`
whenever every listed image has it. -/
theorem findImage_first_listed {σ : Type} (b : Backend σ) (compartmentID diskImage : String)
    (w : World σ) (items : List Image) (s1 : σ)
    (hl : b.ListImages w.state ⟨some compartmentID, some diskImage⟩ = (.ok items, s1)) :
    (items = [] →
      findImage b compartmentID diskImage w =
        .err (.plain ("image " ++ diskImage ++ " not found"))
          ⟨s1, w.trace ++ [.ListImages ⟨some compartmentID, some diskImage⟩]⟩) ∧
    (∀ first rest, items = first :: rest →
      findImage b compartmentID diskImage w =
        .ok first ⟨s1, w.trace ++ [.ListImages ⟨some compartmentID, some diskImage⟩]⟩ ∧
      ((∀ i ∈ items, i.DisplayName = some diskImage) → first.DisplayName = some diskImage)) := by
  refine ⟨fun h => ?_, fun first rest h => ⟨?_, fun hall => ?_⟩⟩
  · subst h
    exact findImage_listed b compartmentID diskImage w hl
  · subst h
    exact findImage_listed b compartmentID diskImage w hl
  · subst h
    exact hall first (List.mem_cons_self _ _)

/-- C16 on the reference backend: an image named `Ubuntu-22.04` is found, an
image named `Oracle-Linux-8` is not. -/
theorem findImage_first_listed_witness :
    (findImage simBackend "c1" "Ubuntu-22.04" (World.start imageOnlyCloud) =
        .ok ⟨some "ocid1.image.5", some "Ubuntu-22.04"⟩
          ⟨imageOnlyCloud, [] ++ [.ListImages ⟨some "c1", some "Ubuntu-22.04"⟩]⟩ ∧
      ((∀ i ∈ [(⟨some "ocid1.image.5", some "Ubuntu-22.04"⟩ : Image)],
          i.DisplayName = some "Ubuntu-22.04") →
        (⟨some "ocid1.image.5", some "Ubuntu-22.04"⟩ : Image).DisplayName =
          some "Ubuntu-22.04")) ∧
    findImage simBackend "c1" "Oracle-Linux-8" (World.start imageOnlyCloud) =
      .err (.plain ("image " ++ "Oracle-Linux-8" ++ " not found"))
        ⟨imageOnlyCloud, [] ++ [.ListImages ⟨some "c1", some "Oracle-Linux-8"⟩]⟩ :=
  ⟨(findImage_first_listed simBackend "c1" "Ubuntu-22.04" (World.start imageOnlyCloud)
      [⟨some "ocid1.image.5", some "Ubuntu-22.04"⟩] imageOnlyCloud rfl).2 _ [] rfl,
   (findImage_first_listed simBackend "c1" "Oracle-Linux-8" (World.start imageOnlyCloud)
      [] imageOnlyCloud rfl).1 rfl⟩

/-- C16 as stated fails: the backend answers the list call with the image
`Ubuntu-22.04` although `Oracle-Linux-8` was asked for; no listed image has
the display name asked for, yet `findImage` does not fail and returns the
image `Ubuntu-22.04`. -/
theorem findImage_returns_other_name :
    (∀ i ∈ imageOnlyCloud.images, i.DisplayName ≠ some "Oracle-Linux-8") ∧
    findImage unfilteredBackend "c1" "Oracle-Linux-8" (World.start imageOnlyCloud) =
      .ok ⟨some "ocid1.image.5", some "Ubuntu-22.04"⟩
        ⟨imageOnlyCloud, [.ListImages ⟨some "c1", some "Oracle-Linux-8"⟩]⟩ := by
  decide

/-! ## C15: a disk size that is not an integer -/

theorem parseUintDigits_error_of_not_digit (ds : List Char) (acc : Nat)
    (h : ds.all (fun c => decide ('0' ≤ c ∧ c ≤ '9')) = false) :
    ∃ kind, parseUintDigits ds acc = .error kind := by
  induction ds generalizing acc with
  | nil => simp at h
  | cons c cs ih =>
    by_cases hc : '0' ≤ c ∧ c ≤ '9'
    · have hcs : cs.all (fun c => decide ('0' ≤ c ∧ c ≤ '9')) = false := by
        simpa [List.all_cons, hc] using h
      simp only [parseUintDigits, digitValue, hc, and_self, if_true]
      split
      · exact ⟨.ErrRange, rfl⟩
      · exact ih _ hcs
    · exact ⟨.ErrSyntax, by simp [parseUintDigits, digitValue, hc]⟩

/-- A string that is not a decimal integer is refused by `strconv.Atoi`, with
a `NumError` for `Atoi` and the whole input. -/
theorem strconv.Atoi_error_of_not_decimal (s : String) (h : isDecimalInteger s = false) :
    ∃ kind, strconv.Atoi s = .error ⟨"Atoi", s, kind⟩ := by
  unfold isDecimalInteger at h
  cases hd : (splitSign s.data).2 with
  | nil => exact ⟨.ErrSyntax, by simp only [strconv.Atoi, hd]⟩
  | cons c cs =>
    rw [hd] at h
    have hall : (c :: cs).all (fun c => decide ('0' ≤ c ∧ c ≤ '9')) = false := by
      simpa using h
    obtain ⟨kind, hk⟩ := parseUintDigits_error_of_not_digit (c :: cs) 0 hall
    exact ⟨kind, by simp only [strconv.Atoi, hd, hk]⟩

theorem BuildInstanceOptions_not_ok_of_bad_size {σ : Type} (env : Env) (b : Backend σ)
    (machineID diskImage diskSizeGB machineType region availabilityDomain compartmentID
      publicKey : String) (w : World σ) (e : NumError)
    (h : strconv.Atoi diskSizeGB = .error e) (req : LaunchInstanceRequest) (w1 : World σ) :
    BuildInstanceOptions env b machineID diskImage diskSizeGB machineType region
      availabilityDomain compartmentID publicKey w ≠ .ok req w1 := by
  intro hrun
  simp only [BuildInstanceOptions, run_bind, h] at hrun
  cases hu : upsertPublicKey env publicKey machineID w with
  | err e wu => rw [bind_err hu] at hrun; cases hrun
  | panic wu => rw [bind_panic hu] at hrun; cases hrun
  | ok sd wu =>
    rw [bind_ok hu, run_bind] at hrun
    cases hf : wrapErr (findImage b compartmentID diskImage) "failed to find image" wu with
    | err e w0 => rw [bind_err hf] at hrun; cases hrun
    | panic w0 => rw [bind_panic hf] at hrun; cases hrun
    | ok image w0 =>
      rw [bind_ok hf, run_bind] at hrun
      cases hn : wrapErr (createOrGetNetwork b compartmentID availabilityDomain machineID)
          "failed to create or get network" w0 with
      | err e w2 => rw [bind_err hn] at hrun; cases hrun
      | panic w2 => rw [bind_panic hn] at hrun; cases hrun
      | ok pair w2 =>
        rw [bind_ok hn] at hrun
        cases hrun

theorem BuildInstanceOptions_bad_size_after_steps {σ : Type} (env : Env) (b : Backend σ)
    (machineID diskImage diskSizeGB machineType region availabilityDomain compartmentID
      publicKey : String) (w w0 w1 : World σ) (e : NumError)
    (h : strconv.Atoi diskSizeGB = .error e)
    (sd : InstanceSourceViaImageDetails) (image : Image) (vcn : Vcn) (subnet : Subnet)
    (hu : upsertPublicKey env publicKey machineID w = .ok sd w)
    (hf : findImage b compartmentID diskImage w = .ok image w0)
    (hn : createOrGetNetwork b compartmentID availabilityDomain machineID w0 =
      .ok (vcn, subnet) w1) :
    BuildInstanceOptions env b machineID diskImage diskSizeGB machineType region
        availabilityDomain compartmentID publicKey w =
      .err (.wrap "failed to parse disk size" (e.toError env.Quote)) w1 := by
  have hf2 : wrapErr (findImage b compartmentID diskImage) "failed to find image" w =
      .ok image w0 := by simp [wrapErr, hf]
  have hn2 : wrapErr (createOrGetNetwork b compartmentID availabilityDomain machineID)
      "failed to create or get network" w0 = .ok (vcn, subnet) w1 := by simp [wrapErr, hn]
  simp only [BuildInstanceOptions, run_bind, h]
  rw [bind_ok hu, run_bind, bind_ok hf2, run_bind, bind_ok hn2]
  rfl

/-- C15, as amended: for every disk size that is not a decimal integer,
`BuildInstanceOptions` returns no launch request, whatever the other arguments
and the backend; and whenever the steps before the parse (key fingerprint and
cloud config, image lookup, network) have succeeded, it fails with the error
"failed to parse disk size" wrapping the error of `strconv.Atoi`, a `NumError`
of `Atoi` for the given string whose message is "strconv.Atoi: parsing "
followed by the quoted string and by ": invalid syntax" or
": value out of range". -/
theorem BuildInstanceOptions_bad_disk_size {σ : Type} (env : Env) (b : Backend σ)
    (machineID diskImage diskSizeGB machineType region availabilityDomain compartmentID
      publicKey : String) (w : World σ) (h : isDecimalInteger diskSizeGB = false) :
    (∀ req w1, BuildInstanceOptions env b machineID diskImage diskSizeGB machineType region
      availabilityDomain compartmentID publicKey w ≠ .ok req w1) ∧
    (∀ sd image w0 vcn subnet w1,
      upsertPublicKey env publicKey machineID w = .ok sd w →
      findImage b compartmentID diskImage w = .ok image w0 →
      createOrGetNetwork b compartmentID availabilityDomain machineID w0 =
        .ok (vcn, subnet) w1 →
      ∃ kind : NumErrorKind,
        strconv.Atoi diskSizeGB = .error ⟨"Atoi", diskSizeGB, kind⟩ ∧
        BuildInstanceOptions env b machineID diskImage diskSizeGB machineType region
            availabilityDomain compartmentID publicKey w =
          .err (.wrap "failed to parse disk size"
            (.plain ("strconv." ++ "Atoi" ++ ": parsing " ++ env.Quote diskSizeGB ++ ": " ++
              kind.Error))) w1) := by
  obtain ⟨kind, hk⟩ := strconv.Atoi_error_of_not_decimal diskSizeGB h
  exact ⟨fun req w1 =>
    BuildInstanceOptions_not_ok_of_bad_size env b machineID diskImage diskSizeGB machineType
      region availabilityDomain compartmentID publicKey w _ hk req w1,
   fun sd image w0 vcn subnet w1 hu hf hn =>
    ⟨kind, hk,
      BuildInstanceOptions_bad_size_after_steps env b machineID diskImage diskSizeGB
        machineType region availabilityDomain compartmentID publicKey w w0 w1 _ hk sd image
        vcn subnet hu hf hn⟩⟩

/-- C15 for the disk size `50GB` on the reference backend holding image and
network; the sizes of the claim are not decimal integers and are syntax
errors of `strconv.Atoi`, the size `99999999999999999999x` is a range
error. -/
theorem BuildInstanceOptions_bad_disk_size_witness :
    (isDecimalInteger "" = false ∧ isDecimalInteger "abc" = false ∧
      isDecimalInteger "50GB" = false ∧ isDecimalInteger "5.5" = false) ∧
    (strconv.Atoi "" = .error ⟨"Atoi", "", .ErrSyntax⟩ ∧
      strconv.Atoi "abc" = .error ⟨"Atoi", "abc", .ErrSyntax⟩ ∧
      strconv.Atoi "5.5" = .error ⟨"Atoi", "5.5", .ErrSyntax⟩ ∧
      strconv.Atoi "99999999999999999999x" =
        .error ⟨"Atoi", "99999999999999999999x", .ErrRange⟩) ∧
    ∃ kind : NumErrorKind,
      strconv.Atoi "50GB" = .error ⟨"Atoi", "50GB", kind⟩ ∧
      BuildInstanceOptions sampleEnv simBackend "devtest" "Ubuntu-22.04" "50GB"
          "VM.Standard.E4.Flex" "us-ashburn-1" "AD-1" "c1" "ssh-rsa AAAA"
          (World.start readyCloud) =
        .err (.wrap "failed to parse disk size"
          (.plain ("strconv." ++ "Atoi" ++ ": parsing " ++ sampleEnv.Quote "50GB" ++ ": " ++
            kind.Error)))
          ⟨readyCloud,
            [.ListImages ⟨some "c1", some "Ubuntu-22.04"⟩,
             .ListVcns ⟨some "c1"⟩,
             .ListInternetGateways ⟨some "c1", some "ocid1.vcn.0"⟩,
             .ListRouteTables ⟨some "c1", some "ocid1.vcn.0"⟩,
             .ListSubnets ⟨some "c1", some "ocid1.vcn.0"⟩]⟩ :=
  ⟨by decide, ⟨rfl, rfl, rfl, rfl⟩,
   (BuildInstanceOptions_bad_disk_size sampleEnv simBackend "devtest" "Ubuntu-22.04" "50GB"
      "VM.Standard.E4.Flex" "us-ashburn-1" "AD-1" "c1" "ssh-rsa AAAA"
      (World.start readyCloud) (by decide)).2 _ _ _ reservedVcn reservedSubnet _
      rfl rfl (by decide)⟩

/-- C15 as stated fails: with the disk size `abc`, a backend that lists no
image makes `BuildInstanceOptions` fail with the image error, and a public key
that does not parse makes it fail with the fingerprint error; neither is a
disk-size parse error. -/
theorem BuildInstanceOptions_bad_size_other_error :
    isDecimalInteger "abc" = false ∧
    BuildInstanceOptions sampleEnv simBackend "devtest" "Ubuntu-22.04" "abc"
        "VM.Standard.E4.Flex" "us-ashburn-1" "AD-1" "c1" "ssh-rsa AAAA"
        (World.start emptyCloud) =
      .err (.wrap "failed to find image" (.plain "image Ubuntu-22.04 not found"))
        ⟨emptyCloud, [.ListImages ⟨some "c1", some "Ubuntu-22.04"⟩]⟩ ∧
    BuildInstanceOptions
        { sampleEnv with ParseAuthorizedKey := fun _ => .error (.plain "ssh: no key found") }
        simBackend "devtest" "Ubuntu-22.04" "abc" "VM.Standard.E4.Flex" "us-ashburn-1" "AD-1"
        "c1" "some invalid key" (World.start readyCloud) =
      .err (.wrap "failed to generate fingerprint for public ssh key"
        (.plain "ssh: no key found")) (World.start readyCloud) := by
  decide

/-! ## C11: the address of a found instance -/

/-- C11, as amended: for a found instance whose attachment listing succeeds
and is empty, `GetInstanceIP` returns no address, and fails with the error
"no VNIC attachments found for instance <id>" when the instance carries an
id. When the listing is not empty and the interface of its first attachment
is fetched, `GetInstanceIP` returns the public address of that interface when
one is assigned, and when none is assigned the private address, provided the
interface carries one. -/
theorem GetInstanceIP_found {σ : Type} (b : Backend σ) (machineID : String)
    (w w1 : World σ) (inst : Instance) (h : GetInstance b machineID w = .ok inst w1) :
    (∀ s2, b.ListVnicAttachments w1.state ⟨inst.Id⟩ = (.ok [], s2) →
      (∀ ip w2, GetInstanceIP b machineID w ≠ .ok ip w2) ∧
      (∀ id, inst.Id = some id →
        GetInstanceIP b machineID w =
          .err (.plain ("no VNIC attachments found for instance " ++ id))
            ⟨s2, w1.trace ++ [.ListVnicAttachments ⟨inst.Id⟩]⟩)) ∧
    (∀ attachment rest s2 vnic s3,
      b.ListVnicAttachments w1.state ⟨inst.Id⟩ = (.ok (attachment :: rest), s2) →
      b.GetVnic s2 ⟨attachment.VnicId⟩ = (.ok vnic, s3) →
      (∀ publicIp, vnic.PublicIp = some publicIp →
        GetInstanceIP b machineID w =
          .ok publicIp ⟨s3, w1.trace ++ [.ListVnicAttachments ⟨inst.Id⟩] ++
            [.GetVnic ⟨attachment.VnicId⟩]⟩) ∧
      (vnic.PublicIp = none → ∀ privateIp, vnic.PrivateIp = some privateIp →
        GetInstanceIP b machineID w =
          .ok privateIp ⟨s3, w1.trace ++ [.ListVnicAttachments ⟨inst.Id⟩] ++
            [.GetVnic ⟨attachment.VnicId⟩]⟩)) := by
  refine ⟨fun s2 hl => ?_, fun attachment rest s2 vnic s3 hl hg => ⟨fun p hp => ?_, fun hp q hq => ?_⟩⟩
  · have step : GetInstanceIP b machineID w =
        match inst.Id with
        | some id =>
          .err (.plain ("no VNIC attachments found for instance " ++ id))
            ⟨s2, w1.trace ++ [.ListVnicAttachments ⟨inst.Id⟩]⟩
        | none => .panic ⟨s2, w1.trace ++ [.ListVnicAttachments ⟨inst.Id⟩]⟩ := by
      simp only [GetInstanceIP, run_bind]
      rw [bind_ok h, run_bind, bind_ok (invoke_ok hl)]
      cases inst.Id <;> rfl
    refine ⟨fun ip w2 hrun => ?_, fun id hid => ?_⟩
    · rw [step] at hrun
      cases hi : inst.Id <;> rw [hi] at hrun <;> cases hrun
    · rw [step, hid]
  · simp only [GetInstanceIP, run_bind]
    rw [bind_ok h, run_bind, bind_ok (invoke_ok hl)]
    simp only [run_bind]
    rw [bind_ok (invoke_ok hg)]
    simp [hp]
  · simp only [GetInstanceIP, run_bind]
    rw [bind_ok h, run_bind, bind_ok (invoke_ok hl)]
    simp only [run_bind]
    rw [bind_ok (invoke_ok hg)]
    simp [hp, hq, deref]

/-- C11 on the running instance of `m1`: without attachment the call fails;
with an interface carrying both addresses the public one is returned; with an
interface carrying a private address only, that one is returned. -/
theorem GetInstanceIP_found_witness :
    GetInstanceIP simBackend "m1" (World.start oneInstanceCloud) =
      .err (.plain ("no VNIC attachments found for instance " ++ "ocid1.instance.7"))
        ⟨oneInstanceCloud, [.ListInstances ⟨some "devpod-m1"⟩] ++
          [.ListVnicAttachments ⟨runningInstance.Id⟩]⟩ ∧
    GetInstanceIP (vnicBackend ⟨some "203.0.113.5", some "10.0.0.2"⟩) "m1"
        (World.start oneInstanceCloud) =
      .ok "203.0.113.5" ⟨oneInstanceCloud, [.ListInstances ⟨some "devpod-m1"⟩] ++
        [.ListVnicAttachments ⟨runningInstance.Id⟩] ++ [.GetVnic ⟨some "ocid1.vnic.1"⟩]⟩ ∧
    GetInstanceIP (vnicBackend ⟨none, some "10.0.0.2"⟩) "m1" (World.start oneInstanceCloud) =
      .ok "10.0.0.2" ⟨oneInstanceCloud, [.ListInstances ⟨some "devpod-m1"⟩] ++
        [.ListVnicAttachments ⟨runningInstance.Id⟩] ++ [.GetVnic ⟨some "ocid1.vnic.1"⟩]⟩ :=
  ⟨((GetInstanceIP_found simBackend "m1" (World.start oneInstanceCloud)
      ⟨oneInstanceCloud, [.ListInstances ⟨some "devpod-m1"⟩]⟩ runningInstance
      (by decide)).1 oneInstanceCloud rfl).2 "ocid1.instance.7" rfl,
   ((GetInstanceIP_found (vnicBackend ⟨some "203.0.113.5", some "10.0.0.2"⟩) "m1"
      (World.start oneInstanceCloud)
      ⟨oneInstanceCloud, [.ListInstances ⟨some "devpod-m1"⟩]⟩ runningInstance
      (by decide)).2 ⟨some "ocid1.vnic.1"⟩ [⟨some "ocid1.vnic.2"⟩] oneInstanceCloud
      ⟨some "203.0.113.5", some "10.0.0.2"⟩ oneInstanceCloud rfl rfl).1 "203.0.113.5" rfl,
   ((GetInstanceIP_found (vnicBackend ⟨none, some "10.0.0.2"⟩) "m1"
      (World.start oneInstanceCloud)
      ⟨oneInstanceCloud, [.ListInstances ⟨some "devpod-m1"⟩]⟩ runningInstance
      (by decide)).2 ⟨some "ocid1.vnic.1"⟩ [⟨some "ocid1.vnic.2"⟩] oneInstanceCloud
      ⟨none, some "10.0.0.2"⟩ oneInstanceCloud rfl rfl).2 rfl "10.0.0.2" rfl⟩

/-- C11 as stated fails: the instance of `m1` is found and has an attachment
whose interface carries neither a public nor a private address; no public
address being assigned, the private one is dereferenced and the call panics
instead of returning an address. And an instance found without id and without
attachment makes the call panic instead of returning the error. -/
theorem GetInstanceIP_no_address_panics :
    GetInstanceIP (vnicBackend ⟨none, none⟩) "m1" (World.start oneInstanceCloud) =
      .panic ⟨oneInstanceCloud,
        [.ListInstances ⟨some "devpod-m1"⟩, .ListVnicAttachments ⟨some "ocid1.instance.7"⟩,
         .GetVnic ⟨some "ocid1.vnic.1"⟩]⟩ ∧
    GetInstanceIP simBackend "m1" (World.start idlessCloud) =
      .panic ⟨idlessCloud,
        [.ListInstances ⟨some "devpod-m1"⟩, .ListVnicAttachments ⟨none⟩]⟩ := by
  decide

/-! ## C14: the key fingerprint -/

theorem base64RawChars_length : ∀ bytes : List Nat,
    (base64RawChars bytes).length = (4 * bytes.length + 2) / 3
  | [] => rfl
  | [_] => by simp [base64RawChars]
  | [_, _] => by simp [base64RawChars]
  | _ :: _ :: _ :: rest => by
    have ih := base64RawChars_length rest
    simp only [base64RawChars, List.length_cons, ih]
    omega

theorem base64Char_mem (n : Nat) : base64Char n ∈ base64StdAlphabet := by
  unfold base64Char
  have h : n % 64 < base64StdAlphabet.length := by
    have : base64StdAlphabet.length = 64 := by decide
    rw [this]
    exact Nat.mod_lt _ (by decide)
  rw [List.getD_eq_getElem _ _ h]
  exact List.getElem_mem _

theorem base64RawChars_mem : ∀ (bytes : List Nat) (c : Char),
    c ∈ base64RawChars bytes → c ∈ base64StdAlphabet
  | [], c, h => absurd h (List.not_mem_nil _)
  | [_], c, h => by
    simp only [base64RawChars, List.mem_cons, List.mem_singleton, List.not_mem_nil,
      or_false] at h
    rcases h with rfl | rfl <;> exact base64Char_mem _
  | [_, _], c, h => by
    simp only [base64RawChars, List.mem_cons, List.mem_singleton, List.not_mem_nil,
      or_false] at h
    rcases h with rfl | rfl | rfl <;> exact base64Char_mem _
  | _ :: _ :: _ :: rest, c, h => by
    simp only [base64RawChars, List.mem_cons] at h
    rcases h with rfl | rfl | rfl | rfl | h
    · exact base64Char_mem _
    · exact base64Char_mem _
    · exact base64Char_mem _
    · exact base64Char_mem _
    · exact base64RawChars_mem rest c h

/-- The fingerprint of a 32-byte digest has 50 characters, none of them the
padding character. -/
theorem fingerprint_shape (digest : List Nat) (h : digest.length = 32) :
    ("SHA256:" ++ base64.RawStdEncoding.EncodeToString digest).length = 50 ∧
    '=' ∉ ("SHA256:" ++ base64.RawStdEncoding.EncodeToString digest).data := by
  constructor
  · rw [String.length_append]
    show "SHA256:".length + (base64RawChars digest).length = 50
    rw [base64RawChars_length, h]
    rfl
  · rw [String.data_append]
    intro hmem
    rcases List.mem_append.1 hmem with h1 | h2
    · exact absurd h1 (by decide)
    · exact absurd (base64RawChars_mem digest '=' h2) (by decide)

/-- C14: with the unpadded standard base64 encoder and a digest of 32 bytes,
for a key line that parses `generateSSHKeyFingerprint` returns, with no error,
"SHA256:" followed by the unpadded base64 encoding of the digest of the key
blob, a string of 50 characters without "="; every line that parses to the
same blob gets the same result; and for a line that does not parse it returns
the empty string together with the parse error. -/
theorem generateSSHKeyFingerprint_spec (env : Env)
    (henc : ∀ bytes, env.RawStdEncodingEncodeToString bytes =
      base64.RawStdEncoding.EncodeToString bytes)
    (hlen : ∀ blob, (env.sha256 blob).length = 32) (publicKey : String) :
    (∀ blob, env.ParseAuthorizedKey publicKey = .ok blob →
      generateSSHKeyFingerprint env publicKey =
        ("SHA256:" ++ base64.RawStdEncoding.EncodeToString (env.sha256 blob), none) ∧
      (generateSSHKeyFingerprint env publicKey).1.length = 50 ∧
      '=' ∉ (generateSSHKeyFingerprint env publicKey).1.data ∧
      ∀ other, env.ParseAuthorizedKey other = .ok blob →
        generateSSHKeyFingerprint env other = generateSSHKeyFingerprint env publicKey) ∧
    (∀ e, env.ParseAuthorizedKey publicKey = .error e →
      generateSSHKeyFingerprint env publicKey = ("", some e)) := by
  refine ⟨fun blob hp => ?_, fun e hp => ?_⟩
  · have hval : generateSSHKeyFingerprint env publicKey =
        ("SHA256:" ++ base64.RawStdEncoding.EncodeToString (env.sha256 blob), none) := by
      simp only [generateSSHKeyFingerprint, hp, FingerprintSHA256, henc]
    refine ⟨hval, ?_, ?_, fun other ho => ?_⟩
    · rw [hval]
      exact (fingerprint_shape _ (hlen blob)).1
    · rw [hval]
      exact (fingerprint_shape _ (hlen blob)).2
    · rw [hval]
      simp only [generateSSHKeyFingerprint, ho, FingerprintSHA256, henc]
  · simp only [generateSSHKeyFingerprint, hp]

/-- C14 in the evaluation environment: two lines with the same key and
different comments parse and get the same fingerprint of 50 characters; the
inputs "some invalid key" and "" do not parse and give the empty string with
an error. -/
theorem generateSSHKeyFingerprint_spec_witness :
    ((generateSSHKeyFingerprint toyEnv "ssh-ed25519 AAAAC3Nz vscode@host").1.length = 50 ∧
      generateSSHKeyFingerprint toyEnv "ssh-ed25519 AAAAC3Nz other comment" =
        generateSSHKeyFingerprint toyEnv "ssh-ed25519 AAAAC3Nz vscode@host") ∧
    generateSSHKeyFingerprint toyEnv "some invalid key" =
      ("", some (.plain "ssh: no key found")) ∧
    generateSSHKeyFingerprint toyEnv "" = ("", some (.plain "ssh: no key found")) :=
  have hlen : ∀ blob, (toyEnv.sha256 blob).length = 32 := fun blob => by
    show ((blob ++ List.replicate 32 0).take 32).length = 32
    simp
  ⟨⟨((generateSSHKeyFingerprint_spec toyEnv (fun _ => rfl) hlen
        "ssh-ed25519 AAAAC3Nz vscode@host").1 ("AAAAC3Nz".data.map Char.toNat) rfl).2.1,
    ((generateSSHKeyFingerprint_spec toyEnv (fun _ => rfl) hlen
        "ssh-ed25519 AAAAC3Nz vscode@host").1 ("AAAAC3Nz".data.map Char.toNat) rfl).2.2.2
      "ssh-ed25519 AAAAC3Nz other comment" rfl⟩,
   (generateSSHKeyFingerprint_spec toyEnv (fun _ => rfl) hlen "some invalid key").2 _ rfl,
   (generateSSHKeyFingerprint_spec toyEnv (fun _ => rfl) hlen "").2 _ rfl⟩

/-! ## C17: creating exactly the missing network resources -/

/-- Each lookup of `createOrGetNetwork` either finds a first resource with the
reserved display name, or finds none and creates it; the calls issued are the
four list calls, each followed by a create call exactly when the resource was
missing, and the create requests refer to the resources of the earlier
steps. -/
theorem createOrGetNetwork_steps {σ : Type} (b : Backend σ)
    (compartmentID availabilityDomain machineID : String) (w : World σ)
    (vcns : List Vcn) (igs : List InternetGateway) (rts : List RouteTable)
    (subnets : List Subnet) (s1 s2 s3 s4 s5 s6 s7 s8 : σ)
    (vcn : Vcn) (ig : InternetGateway) (rt : RouteTable) (subnet : Subnet)
    (noVcn noIg noRt noSubnet : Bool)
    (hv : b.ListVcns w.state ⟨some compartmentID⟩ = (.ok vcns, s1))
    (rv : if noVcn then
        NoneNamed Vcn.DisplayName "devpod-vcn" vcns ∧
        b.CreateVcn s1 ⟨some compartmentID, some "devpod-vcn", some "10.0.0.0/16",
          some "devpodvcn", [("type", "devpod")]⟩ = (.ok vcn, s2)
      else FirstNamed Vcn.DisplayName "devpod-vcn" vcns vcn ∧ s2 = s1)
    (hg : b.ListInternetGateways s2 ⟨some compartmentID, vcn.Id⟩ = (.ok igs, s3))
    (rg : if noIg then
        NoneNamed InternetGateway.DisplayName "devpod-ig" igs ∧
        b.CreateInternetGateway s3 ⟨some compartmentID, some "devpod-ig", vcn.Id, some true,
          [("type", "devpod")]⟩ = (.ok ig, s4)
      else FirstNamed InternetGateway.DisplayName "devpod-ig" igs ig ∧ s4 = s3)
    (hr : b.ListRouteTables s4 ⟨some compartmentID, vcn.Id⟩ = (.ok rts, s5))
    (rr : if noRt then
        NoneNamed RouteTable.DisplayName "devpod-rt" rts ∧
        b.CreateRouteTable s5 ⟨some compartmentID, some "devpod-rt", vcn.Id,
          [⟨ig.Id, some "0.0.0.0/0", "CIDR_BLOCK"⟩], [("type", "devpod")]⟩ = (.ok rt, s6)
      else FirstNamed RouteTable.DisplayName "devpod-rt" rts rt ∧ s6 = s5)
    (hs : b.ListSubnets s6 ⟨some compartmentID, vcn.Id⟩ = (.ok subnets, s7))
    (rs : if noSubnet then
        NoneNamed Subnet.DisplayName "devpod-subnet" subnets ∧
        b.CreateSubnet s7 ⟨some compartmentID, some "devpod-subnet", vcn.Id,
          some "10.0.0.0/24", rt.Id, some "devpodsubnet", some availabilityDomain,
          [("type", "devpod")]⟩ = (.ok subnet, s8)
      else FirstNamed Subnet.DisplayName "devpod-subnet" subnets subnet ∧ s8 = s7) :
    createOrGetNetwork b compartmentID availabilityDomain machineID w =
      .ok (vcn, subnet) ⟨s8, w.trace ++
        ([Call.ListVcns ⟨some compartmentID⟩] ++
         (if noVcn then
            [Call.CreateVcn ⟨some compartmentID, some "devpod-vcn", some "10.0.0.0/16",
              some "devpodvcn", [("type", "devpod")]⟩]
          else []) ++
         [Call.ListInternetGateways ⟨some compartmentID, vcn.Id⟩] ++
         (if noIg then
            [Call.CreateInternetGateway ⟨some compartmentID, some "devpod-ig", vcn.Id,
              some true, [("type", "devpod")]⟩]
          else []) ++
         [Call.ListRouteTables ⟨some compartmentID, vcn.Id⟩] ++
         (if noRt then
            [Call.CreateRouteTable ⟨some compartmentID, some "devpod-rt", vcn.Id,
              [⟨ig.Id, some "0.0.0.0/0", "CIDR_BLOCK"⟩], [("type", "devpod")]⟩]
          else []) ++
         [Call.ListSubnets ⟨some compartmentID, vcn.Id⟩] ++
         (if noSubnet then
            [Call.CreateSubnet ⟨some compartmentID, some "devpod-subnet", vcn.Id,
              some "10.0.0.0/24", rt.Id, some "devpodsubnet", some availabilityDomain,
              [("type", "devpod")]⟩]
          else []))⟩ := by
  have lv : ∀ w1 : World σ, firstByDisplayName Vcn.DisplayName "devpod-vcn" vcns w1 =
      .ok (if noVcn then none else some vcn) w1 := fun w1 => by
    cases noVcn
    · exact firstByDisplayName_found rv.1 w1
    · exact firstByDisplayName_none rv.1 w1
  have lg : ∀ w1 : World σ, firstByDisplayName InternetGateway.DisplayName "devpod-ig" igs w1 =
      .ok (if noIg then none else some ig) w1 := fun w1 => by
    cases noIg
    · exact firstByDisplayName_found rg.1 w1
    · exact firstByDisplayName_none rg.1 w1
  have lr : ∀ w1 : World σ, firstByDisplayName RouteTable.DisplayName "devpod-rt" rts w1 =
      .ok (if noRt then none else some rt) w1 := fun w1 => by
    cases noRt
    · exact firstByDisplayName_found rr.1 w1
    · exact firstByDisplayName_none rr.1 w1
  have ls : ∀ w1 : World σ, firstByDisplayName Subnet.DisplayName "devpod-subnet" subnets w1 =
      .ok (if noSubnet then none else some subnet) w1 := fun w1 => by
    cases noSubnet
    · exact firstByDisplayName_found rs.1 w1
    · exact firstByDisplayName_none rs.1 w1
  simp only [createOrGetNetwork, run_bind, labelType, labelTypeDevPod,
    RouteRuleDestinationTypeCidrBlock]
  rw [bind_ok (invoke_ok hv), run_bind, bind_ok (lv _), run_bind]
  cases noVcn <;> cases noIg <;> cases noRt <;> cases noSubnet <;>
    simp only [Bool.false_eq_true, if_false, if_true] at rv rg rr rs ⊢ <;>
    obtain ⟨-, ev⟩ := rv <;> obtain ⟨-, eg⟩ := rg <;> obtain ⟨-, er⟩ := rr <;>
    obtain ⟨-, es⟩ := rs <;>
    (try subst ev) <;> (try subst eg) <;> (try subst er) <;> (try subst es) <;>
    simp only [Go.bind, run_bind, run_pure, invoke, Bool.false_eq_true, if_false, if_true,
      List.append_assoc, List.nil_append, List.cons_append, List.append_nil, *]

/-- C17, as amended: let all backend calls succeed and let every listed
resource that a lookup inspects carry a display name. Then for each subset of
the four reserved resources that exists (a flag per kind telling whether it is
missing), `createOrGetNetwork` issues, in the order VCN, internet gateway,
route table, subnet, the list call of the kind followed by a create call
exactly when the kind is missing; the gateway, route table and subnet requests
carry the id of the VCN found or created, the route table has the single rule
`0.0.0.0/0` targeting the id of the gateway found or created, and the subnet
has CIDR `10.0.0.0/24`, the id of the route table found or created and the
given availability domain. -/
theorem createOrGetNetwork_converges {σ : Type} (b : Backend σ)
    (compartmentID availabilityDomain machineID : String) (w : World σ)
    (vcns : List Vcn) (igs : List InternetGateway) (rts : List RouteTable)
    (subnets : List Subnet) (s1 s2 s3 s4 s5 s6 s7 s8 : σ)
    (vcn : Vcn) (ig : InternetGateway) (rt : RouteTable) (subnet : Subnet)
    (noVcn noIg noRt noSubnet : Bool)
    (hv : b.ListVcns w.state ⟨some compartmentID⟩ = (.ok vcns, s1))
    (rv : if noVcn then
        NoneNamed Vcn.DisplayName "devpod-vcn" vcns ∧
        b.CreateVcn s1 ⟨some compartmentID, some "devpod-vcn", some "10.0.0.0/16",
          some "devpodvcn", [("type", "devpod")]⟩ = (.ok vcn, s2)
      else FirstNamed Vcn.DisplayName "devpod-vcn" vcns vcn ∧ s2 = s1)
    (hg : b.ListInternetGateways s2 ⟨some compartmentID, vcn.Id⟩ = (.ok igs, s3))
    (rg : if noIg then
        NoneNamed InternetGateway.DisplayName "devpod-ig" igs ∧
        b.CreateInternetGateway s3 ⟨some compartmentID, some "devpod-ig", vcn.Id, some true,
          [("type", "devpod")]⟩ = (.ok ig, s4)
      else FirstNamed InternetGateway.DisplayName "devpod-ig" igs ig ∧ s4 = s3)
    (hr : b.ListRouteTables s4 ⟨some compartmentID, vcn.Id⟩ = (.ok rts, s5))
    (rr : if noRt then
        NoneNamed RouteTable.DisplayName "devpod-rt" rts ∧
        b.CreateRouteTable s5 ⟨some compartmentID, some "devpod-rt", vcn.Id,
          [⟨ig.Id, some "0.0.0.0/0", "CIDR_BLOCK"⟩], [("type", "devpod")]⟩ = (.ok rt, s6)
      else FirstNamed RouteTable.DisplayName "devpod-rt" rts rt ∧ s6 = s5)
    (hs : b.ListSubnets s6 ⟨some compartmentID, vcn.Id⟩ = (.ok subnets, s7))
    (rs : if noSubnet then
        NoneNamed Subnet.DisplayName "devpod-subnet" subnets ∧
        b.CreateSubnet s7 ⟨some compartmentID, some "devpod-subnet", vcn.Id,
          some "10.0.0.0/24", rt.Id, some "devpodsubnet", some availabilityDomain,
          [("type", "devpod")]⟩ = (.ok subnet, s8)
      else FirstNamed Subnet.DisplayName "devpod-subnet" subnets subnet ∧ s8 = s7) :
    createOrGetNetwork b compartmentID availabilityDomain machineID w =
      .ok (vcn, subnet) ⟨s8, w.trace ++
        ([Call.ListVcns ⟨some compartmentID⟩] ++
         (if noVcn then
            [Call.CreateVcn ⟨some compartmentID, some "devpod-vcn", some "10.0.0.0/16",
              some "devpodvcn", [("type", "devpod")]⟩]
          else []) ++
         [Call.ListInternetGateways ⟨some compartmentID, vcn.Id⟩] ++
         (if noIg then
            [Call.CreateInternetGateway ⟨some compartmentID, some "devpod-ig", vcn.Id,
              some true, [("type", "devpod")]⟩]
          else []) ++
         [Call.ListRouteTables ⟨some compartmentID, vcn.Id⟩] ++
         (if noRt then
            [Call.CreateRouteTable ⟨some compartmentID, some "devpod-rt", vcn.Id,
              [⟨ig.Id, some "0.0.0.0/0", "CIDR_BLOCK"⟩], [("type", "devpod")]⟩]
          else []) ++
         [Call.ListSubnets ⟨some compartmentID, vcn.Id⟩] ++
         (if noSubnet then
            [Call.CreateSubnet ⟨some compartmentID, some "devpod-subnet", vcn.Id,
              some "10.0.0.0/24", rt.Id, some "devpodsubnet", some availabilityDomain,
              [("type", "devpod")]⟩]
          else []))⟩ :=
  createOrGetNetwork_steps b compartmentID availabilityDomain machineID w vcns igs rts subnets
    s1 s2 s3 s4 s5 s6 s7 s8 vcn ig rt subnet noVcn noIg noRt noSubnet hv rv hg rg hr rr hs rs

/-- C17 on the reference backend holding `devpod-vcn` and `devpod-ig` only:
the route table and the subnet are created, the VCN and the gateway are not. -/
theorem createOrGetNetwork_converges_witness :
    createOrGetNetwork simBackend "c1" "AD-1" "m1" (World.start halfCloud) =
      .ok (reservedVcn, reservedSubnet) ⟨networkCloud, (World.start halfCloud).trace ++
        ([Call.ListVcns ⟨some "c1"⟩] ++
         (if false then
            [Call.CreateVcn ⟨some "c1", some "devpod-vcn", some "10.0.0.0/16",
              some "devpodvcn", [("type", "devpod")]⟩]
          else []) ++
         [Call.ListInternetGateways ⟨some "c1", reservedVcn.Id⟩] ++
         (if false then
            [Call.CreateInternetGateway ⟨some "c1", some "devpod-ig", reservedVcn.Id,
              some true, [("type", "devpod")]⟩]
          else []) ++
         [Call.ListRouteTables ⟨some "c1", reservedVcn.Id⟩] ++
         (if true then
            [Call.CreateRouteTable ⟨some "c1", some "devpod-rt", reservedVcn.Id,
              [⟨reservedIg.Id, some "0.0.0.0/0", "CIDR_BLOCK"⟩], [("type", "devpod")]⟩]
          else []) ++
         [Call.ListSubnets ⟨some "c1", reservedVcn.Id⟩] ++
         (if true then
            [Call.CreateSubnet ⟨some "c1", some "devpod-subnet", reservedVcn.Id,
              some "10.0.0.0/24", reservedRt.Id, some "devpodsubnet", some "AD-1",
              [("type", "devpod")]⟩]
          else []))⟩ :=
  createOrGetNetwork_converges simBackend "c1" "AD-1" "m1" (World.start halfCloud)
    [reservedVcn] [reservedIg] [] []
    halfCloud halfCloud halfCloud halfCloud halfCloud
    { halfCloud with routeTables := [reservedRt], serial := 3 }
    { halfCloud with routeTables := [reservedRt], serial := 3 } networkCloud
    reservedVcn reservedIg reservedRt reservedSubnet false false true true
    rfl ⟨⟨[], [], rfl, rfl, fun _ hx => nomatch hx⟩, rfl⟩
    rfl ⟨⟨[], [], rfl, rfl, fun _ hx => nomatch hx⟩, rfl⟩
    rfl ⟨fun _ hx => absurd hx (List.not_mem_nil _), rfl⟩
    rfl ⟨fun _ hx => absurd hx (List.not_mem_nil _), rfl⟩

/-- C17 as stated fails: the backend holds `devpod-vcn` and, in that VCN, an
internet gateway without display name; all calls succeed, the gateway, the
route table and the subnet are missing, but the run panics on the absent name
after the second list call and issues no create call. -/
theorem createOrGetNetwork_unnamed_gateway_panics :
    (reservedVcn ∈ unnamedIgCloud.vcns ∧
      (∀ g ∈ unnamedIgCloud.internetGateways, g.DisplayName ≠ some "devpod-ig") ∧
      unnamedIgCloud.routeTables = [] ∧ unnamedIgCloud.subnets = []) ∧
    createOrGetNetwork simBackend "c1" "AD-1" "m1" (World.start unnamedIgCloud) =
      .panic ⟨unnamedIgCloud,
        [.ListVcns ⟨some "c1"⟩, .ListInternetGateways ⟨some "c1", some "ocid1.vcn.0"⟩]⟩ := by
  decide

/-! ## C13: a failing call ends `createOrGetNetwork` -/

section Failure

variable {σ α β : Type} {b : Backend σ}

theorem AllOk_append {s s1 s2 : σ} {cs1 cs2 : List Call} (h1 : AllOk b s cs1 s1)
    (h2 : AllOk b s1 cs2 s2) : AllOk b s (cs1 ++ cs2) s2 := by
  induction cs1 generalizing s with
  | nil =>
    change s1 = s at h1
    subst h1
    exact h2
  | cons c cs ih => exact ⟨h1.1, ih h1.2⟩

theorem propagates_of_world {m : Go σ α} (h : ∀ w, (m w).world = w)
    (hne : ∀ w, (m w).isErr = false) : Propagates b m := fun w =>
  ⟨[], by rw [h w, List.append_nil], Or.inl ⟨by rw [h w]; rfl, hne w⟩⟩

theorem propagates_pure (a : α) : Propagates b (pure a : Go σ α) :=
  propagates_of_world (fun _ => rfl) (fun _ => rfl)

theorem propagates_deref (p : Option α) : Propagates b (deref p : Go σ α) :=
  propagates_of_world (fun w => by cases p <;> rfl) (fun w => by cases p <;> rfl)

theorem propagates_invoke (op : σ → Except GoError α × σ) (c : Call)
    (h : ∀ s, b.answer s c = (errorOf (op s).1, (op s).2)) : Propagates b (invoke op c) :=
  fun w => by
    refine ⟨[c], ?_, ?_⟩
    · unfold Oracle.invoke
      rcases op w.state with ⟨_ | _, _⟩ <;> rfl
    · have hw := h w.state
      unfold Oracle.invoke
      rcases hop : op w.state with ⟨e | a, s1⟩
      · rw [hop] at hw
        exact Or.inr ⟨[], c, w.state, e, rfl, rfl, hw, rfl⟩
      · rw [hop] at hw
        refine Or.inl ⟨⟨?_, ?_⟩, rfl⟩
        · rw [hw]
          rfl
        · rw [hw]
          rfl

theorem propagates_bind {m : Go σ α} {f : α → Go σ β} (hm : Propagates b m)
    (hf : ∀ a, Propagates b (f a)) : Propagates b (m >>= f) := fun w => by
  obtain ⟨cs1, t1, h1⟩ := hm w
  rw [run_bind]
  cases hr : m w with
  | ok a w1 =>
    rw [hr] at t1 h1
    change w1.trace = _ at t1
    obtain ⟨cs2, t2, h2⟩ := hf a w1
    rw [bind_ok hr]
    have ok1 : AllOk b w.state cs1 w1.state := by
      rcases h1 with ⟨h, -⟩ | ⟨_, _, _, _, _, _, _, h⟩
      · exact h
      · cases h
    refine ⟨cs1 ++ cs2, by rw [t2, t1, List.append_assoc], ?_⟩
    rcases h2 with ⟨h, hne⟩ | ⟨pre, call, s, e, hcs, hpre, hans, hres⟩
    · exact Or.inl ⟨AllOk_append ok1 h, hne⟩
    · exact Or.inr ⟨cs1 ++ pre, call, s, e, by rw [hcs, List.append_assoc],
        AllOk_append ok1 hpre, hans, hres⟩
  | err e w1 =>
    rw [hr] at t1 h1
    rw [bind_err hr]
    refine ⟨cs1, t1, ?_⟩
    rcases h1 with ⟨-, hne⟩ | ⟨pre, call, s, e1, hcs, hpre, hans, hres⟩
    · cases hne
    · cases hres
      exact Or.inr ⟨pre, call, s, e, hcs, hpre, hans, rfl⟩
  | panic w1 =>
    rw [hr] at t1 h1
    rw [bind_panic hr]
    refine ⟨cs1, t1, ?_⟩
    rcases h1 with h | ⟨_, _, _, _, _, _, _, h⟩
    · exact Or.inl ⟨h.1, rfl⟩
    · cases h

theorem propagates_firstByDisplayName {ρ : Type} (displayName : ρ → Option String)
    (name : String) (items : List ρ) :
    Propagates b (firstByDisplayName displayName name items : Go σ (Option ρ)) := by
  induction items with
  | nil => exact propagates_pure _
  | cons v rest ih =>
    unfold Oracle.firstByDisplayName
    refine propagates_bind (propagates_deref _) fun n => ?_
    split
    · exact propagates_pure _
    · exact ih

theorem propagates_createOrGetNetwork (b : Backend σ)
    (compartmentID availabilityDomain machineID : String) :
    Propagates b (createOrGetNetwork b compartmentID availabilityDomain machineID) := by
  unfold Oracle.createOrGetNetwork
  refine propagates_bind (propagates_invoke _ _ fun _ => rfl) fun _ => ?_
  refine propagates_bind (propagates_firstByDisplayName _ _ _) fun vcnFound => ?_
  refine propagates_bind ?_ fun vcn => ?_
  · cases vcnFound
    · exact propagates_invoke _ _ fun _ => rfl
    · exact propagates_pure _
  refine propagates_bind (propagates_invoke _ _ fun _ => rfl) fun _ => ?_
  refine propagates_bind (propagates_firstByDisplayName _ _ _) fun igFound => ?_
  refine propagates_bind ?_ fun ig => ?_
  · cases igFound
    · exact propagates_invoke _ _ fun _ => rfl
    · exact propagates_pure _
  refine propagates_bind (propagates_invoke _ _ fun _ => rfl) fun _ => ?_
  refine propagates_bind (propagates_firstByDisplayName _ _ _) fun rtFound => ?_
  refine propagates_bind ?_ fun rt => ?_
  · cases rtFound
    · exact propagates_invoke _ _ fun _ => rfl
    · exact propagates_pure _
  refine propagates_bind (propagates_invoke _ _ fun _ => rfl) fun _ => ?_
  refine propagates_bind (propagates_firstByDisplayName _ _ _) fun subnetFound => ?_
  refine propagates_bind ?_ fun subnet => propagates_pure _
  cases subnetFound
  · exact propagates_invoke _ _ fun _ => rfl
  · exact propagates_pure _

end Failure

/-- C13: the calls `createOrGetNetwork` issues are list and create calls of
the four network resources, never another call. Answered in turn by the
backend, either they all succeed and the run does not end with an error, or
all but the last succeed and the last one fails: then the run ends with the
error of that call and with no VCN and subnet, it issued nothing after the
failing call, and the backend is in the state that call left. -/
theorem createOrGetNetwork_failure {σ : Type} (b : Backend σ)
    (compartmentID availabilityDomain machineID : String) (w : World σ) :
    ∃ cs : List Call,
      (createOrGetNetwork b compartmentID availabilityDomain machineID w).world.trace =
        w.trace ++ cs ∧
      (∀ c ∈ cs, c.name ∈ networkCallNames) ∧
      ((AllOk b w.state cs
            (createOrGetNetwork b compartmentID availabilityDomain machineID w).world.state ∧
          (createOrGetNetwork b compartmentID availabilityDomain machineID w).isErr = false) ∨
        (∃ pre call s e, cs = pre ++ [call] ∧ AllOk b w.state pre s ∧
          b.answer s call =
            (some e,
              (createOrGetNetwork b compartmentID availabilityDomain machineID w).world.state) ∧
          createOrGetNetwork b compartmentID availabilityDomain machineID w =
            .err e (createOrGetNetwork b compartmentID availabilityDomain machineID w).world)) := by
  obtain ⟨cs, ht, hp⟩ :=
    propagates_createOrGetNetwork b compartmentID availabilityDomain machineID w
  obtain ⟨cs2, ht2, hn⟩ :=
    Issues.createOrGetNetwork (P := fun c => c.name ∈ networkCallNames) b compartmentID
      availabilityDomain machineID (fun _ hc => hc) w
  have hcs : cs2 = cs := List.append_cancel_left (ht2.symm.trans ht)
  subst hcs
  exact ⟨cs2, ht, hn, hp⟩

/-- On the reference backend whose gateway create call fails, a run from the
empty backend creates the VCN, fails on the gateway with the error of that
call, issues nothing afterwards, and leaves the VCN in the backend. -/
theorem createOrGetNetwork_gateway_failure :
    createOrGetNetwork noGatewayBackend "c1" "AD-1" "m1" (World.start emptyCloud) =
      .err (.service 500 "InternalError")
        ⟨{ emptyCloud with vcns := [reservedVcn], serial := 1 },
          [.ListVcns ⟨some "c1"⟩,
           .CreateVcn ⟨some "c1", some "devpod-vcn", some "10.0.0.0/16", some "devpodvcn",
             [("type", "devpod")]⟩,
           .ListInternetGateways ⟨some "c1", some "ocid1.vcn.0"⟩,
           .CreateInternetGateway ⟨some "c1", some "devpod-ig", some "ocid1.vcn.0", some true,
             [("type", "devpod")]⟩]⟩ := by
  decide

end Oracle
